import Mathlib

/-
Verification of the dual reconciliation core of
cluster-api-provider-nvidia-bmm against its specification.

The Go source is shallowly embedded: the remote provisioning API is a
record of functions from request values to call outcomes (transport
error, or an HTTP status code together with an optionally decoded
body), reconcile passes are pure functions threading the object state
and emitting the list of remote calls they issued, and Kubernetes
objects are plain structures.  Go maps that the controllers iterate
or mutate (subnet-name to id) are association lists in insertion
order.  uuid.Parse is modelled on the canonical 36-character
8-4-4-4-12 form, which is the only form the controllers produce or
cache; net.ParseCIDR is modelled on the IPv4 dotted-quad form, the
only form cluster subnet CIDRs take.
-/

namespace NvidiaBMM

/-- Is the character an ASCII hexadecimal digit. -/
def isHexChar (c : Char) : Bool :=
  c.isDigit || ('a' ≤ c && c ≤ 'f') || ('A' ≤ c && c ≤ 'F')

/-- Character check for position i of a canonical UUID string:
dashes at positions 8, 13, 18 and 23, hex digits elsewhere. -/
def uuidCharsOk : Nat → List Char → Bool
  | _, [] => true
  | i, c :: rest =>
    (if i == 8 || i == 13 || i == 18 || i == 23 then c == '-' else isHexChar c)
      && uuidCharsOk (i + 1) rest

/-- Canonical 36-character UUID form accepted by uuid.Parse. -/
def isCanonicalUUID (s : String) : Bool :=
  s.toList.length == 36 && uuidCharsOk 0 s.toList

/-- Lower-case an ASCII upper-case hex letter, as uuid.Parse normalises. -/
def lowerHexChar (c : Char) : Char :=
  if 'A' ≤ c && c ≤ 'F' then Char.ofNat (c.toNat + 32) else c

/-- Model of uuid.Parse restricted to the canonical form the
controllers cache and produce: on success the parsed value is
rendered back (String method), which lower-cases hex letters. -/
def parseUUID (s : String) : Option String :=
  if isCanonicalUUID s then some (String.mk (s.toList.map lowerHexChar)) else none

/-- Split a character list on a separator, keeping empty groups,
like strings.Split. -/
def splitChar (sep : Char) : List Char → List (List Char)
  | [] => [[]]
  | c :: rest =>
    match splitChar sep rest with
    | [] => [[]]
    | g :: gs => if c == sep then [] :: g :: gs else (c :: g) :: gs

/-- Decimal value of a digit list. -/
def decimalVal (cs : List Char) : Nat :=
  cs.foldl (fun a c => a * 10 + (c.toNat - 48)) 0

/-- Validity of one IPv4 dotted-quad field as net.ParseCIDR accepts it:
one to three decimal digits, no leading zero, value at most 255. -/
def octetOk (cs : List Char) : Bool :=
  !cs.isEmpty && cs.all (·.isDigit) && cs.length ≤ 3
    && (cs.length == 1 || cs.head? != some '0') && decimalVal cs ≤ 255

/-- Validity of the mask-length field: decimal digits with value at
most 32. -/
def maskFieldOk (cs : List Char) : Bool :=
  !cs.isEmpty && cs.all (·.isDigit) && decimalVal cs ≤ 32

/-- Apply the first n mask bits that fall on octet k to value v:
the network part of the octet with host bits zeroed. -/
def maskOctet (v n k : Nat) : Nat :=
  let b := min 8 (n - 8 * k)
  v / 2 ^ (8 - b) * 2 ^ (8 - b)

/-- Render four octet values as a dotted-quad address string. -/
def quadString (a b c d : Nat) : String :=
  toString a ++ "." ++ toString b ++ "." ++ toString c ++ "." ++ toString d

/-- Model of the controller's parseCIDR: wraps net.ParseCIDR (IPv4
case), returning the network address with host bits zeroed and the
mask length. -/
def parseCIDR (cidr : String) : Except String (String × Nat) :=
  match splitChar '/' cidr.toList with
  | [ipPart, maskPart] =>
    match splitChar '.' ipPart with
    | [a, b, c, d] =>
      if octetOk a && octetOk b && octetOk c && octetOk d && maskFieldOk maskPart then
        let n := decimalVal maskPart
        Except.ok
          (quadString (maskOctet (decimalVal a) n 0) (maskOctet (decimalVal b) n 1)
             (maskOctet (decimalVal c) n 2) (maskOctet (decimalVal d) n 3), n)
      else Except.error ("invalid CIDR " ++ cidr)
    | _ => Except.error ("invalid CIDR " ++ cidr)
  | _ => Except.error ("invalid CIDR " ++ cidr)

/-- Lower-case an ASCII letter, as strings.ToLower does for the
ASCII enum strings translated by the NSG step. -/
def asciiLowerChar (c : Char) : Char :=
  if 'A' ≤ c && c ≤ 'Z' then Char.ofNat (c.toNat + 32) else c

/-- Model of strings.ToLower for ASCII strings. -/
def asciiLower (s : String) : String :=
  String.mk (s.toList.map asciiLowerChar)

/-- Lookup in an association list, as Go map indexing. -/
def assocGet (m : List (String × String)) (k : String) : Option String :=
  (m.find? (fun p => p.1 == k)).map (·.2)

/-- Insert or replace in an association list, as Go map assignment. -/
def assocSet (m : List (String × String)) (k v : String) : List (String × String) :=
  if m.any (fun p => p.1 == k) then
    m.map (fun p => if p.1 == k then (k, v) else p)
  else m ++ [(k, v)]

/-- Remove a key from an association list, as Go delete. -/
def assocDel (m : List (String × String)) (k : String) : List (String × String) :=
  m.filter (fun p => p.1 != k)

example : parseCIDR "10.0.1.0/24" = Except.ok ("10.0.1.0", 24) := rfl
example : parseCIDR "10.0.1.5/24" = Except.ok ("10.0.1.0", 24) := rfl
example : parseCIDR "10.0.1.5" = Except.error "invalid CIDR 10.0.1.5" := rfl
example : parseUUID "550e8400-e29b-41d4-a716-446655440000" =
    some "550e8400-e29b-41d4-a716-446655440000" := by decide
example : parseUUID "not-a-uuid" = none := by decide

/-- Outcome of one remote call through the generated client: a
transport error, or an HTTP response with a status code and the
optionally decoded body pointer. -/
inductive RemoteOutcome (β : Type) where
  | transportError
  | response (status : Nat) (body : Option β)
deriving DecidableEq, Repr

/-- Response body carrying the generated identifier, as the VPC,
subnet, NSG and IP-block resources return it. -/
structure IdBody where
  id : Option String
deriving DecidableEq, Repr

/-- CreateVpcJSONRequestBody as the controller fills it. -/
structure CreateVpcReq where
  name : String
  siteId : String
  netVirtType : String
  labels : Option (List (String × String))
deriving DecidableEq, Repr

/-- CreateIpblockJSONRequestBody as ensureIPBlock fills it. -/
structure CreateIpblockReq where
  name : String
  pfx : String
  prefixLength : Nat
  protocolVersion : String
  routingType : String
  siteId : String
deriving DecidableEq, Repr

/-- CreateSubnetJSONRequestBody as reconcileSubnets fills it: only
the mask length is carried, there is no host-address field. -/
structure CreateSubnetReq where
  name : String
  vpcId : String
  ipv4BlockId : String
  prefixLength : Nat
deriving DecidableEq, Repr

/-- NetworkSecurityGroupRule as reconcileNSG translates one rule. -/
structure NsgRuleReq where
  name : String
  direction : String
  protocol : String
  action : String
  sourcePfx : String
  destPfx : String
  destinationPortRange : Option String
deriving DecidableEq, Repr

/-- CreateNetworkSecurityGroupJSONRequestBody as reconcileNSG fills it. -/
structure CreateNsgReq where
  name : String
  siteId : String
  rules : Option (List NsgRuleReq)
deriving DecidableEq, Repr

/-- InterfaceCreateRequest as createInstance fills it. -/
structure InterfaceReq where
  subnetId : String
  isPhysical : Bool
deriving DecidableEq, Repr

/-- CreateInstanceJSONRequestBody as createInstance fills it. -/
structure CreateInstanceReq where
  name : String
  tenantId : String
  vpcId : String
  userData : String
  interfaces : List InterfaceReq
  sshKeyGroupIds : Option (List String)
  labels : Option (List (String × String))
  instanceTypeId : Option String
  machineId : Option String
  phoneHomeEnabled : Bool
deriving DecidableEq, Repr

/-- One interface of a fetched instance. -/
structure InterfaceBody where
  ipAddresses : Option (List String)
deriving DecidableEq, Repr

/-- Instance resource as the remote returns it. -/
structure InstanceBody where
  id : Option String
  machineId : Option String
  status : Option String
  interfaces : Option (List InterfaceBody)
deriving DecidableEq, Repr

/-- One remote call issued during a reconcile pass, recorded in
issue order.  Get and delete calls carry the identifier argument;
create calls carry the full request body. -/
inductive RemoteCall where
  | getVpc (id : String)
  | createVpc (req : CreateVpcReq)
  | getIpblock (id : String)
  | createIpblock (req : CreateIpblockReq)
  | getSubnet (id : String)
  | createSubnet (req : CreateSubnetReq)
  | getNsg (id : String)
  | createNsg (req : CreateNsgReq)
  | deleteNsg (id : String)
  | deleteSubnet (id : String)
  | deleteVpc (id : String)
  | getInstance (id : String)
  | createInstance (req : CreateInstanceReq)
  | deleteInstance (id : String)
deriving DecidableEq, Repr

/-- Does the call create a remote resource. -/
def RemoteCall.isCreate : RemoteCall → Bool
  | .createVpc _ | .createIpblock _ | .createSubnet _
  | .createNsg _ | .createInstance _ => true
  | _ => false

/-- The remote provisioning platform, one function per operation the
core calls; the outcome of a call is a function of its argument. -/
structure RemoteEnv where
  getVpc : String → RemoteOutcome IdBody
  createVpc : CreateVpcReq → RemoteOutcome IdBody
  getIpblock : String → RemoteOutcome IdBody
  createIpblock : CreateIpblockReq → RemoteOutcome IdBody
  getSubnet : String → RemoteOutcome IdBody
  createSubnet : CreateSubnetReq → RemoteOutcome IdBody
  getNsg : String → RemoteOutcome IdBody
  createNsg : CreateNsgReq → RemoteOutcome IdBody
  deleteNsg : String → RemoteOutcome Unit
  deleteSubnet : String → RemoteOutcome Unit
  deleteVpc : String → RemoteOutcome Unit
  getInstance : String → RemoteOutcome InstanceBody
  createInstance : CreateInstanceReq → RemoteOutcome InstanceBody
  deleteInstance : String → RemoteOutcome Unit

/-- A status condition, as metav1.Condition carries it. -/
structure Condition where
  condType : String
  condStatus : Bool
  reason : String
  message : String
deriving DecidableEq, Repr

/-- conditions.Set: replace the condition of the same type, or append. -/
def setCondition (conds : List Condition) (c : Condition) : List Condition :=
  if conds.any (fun c0 => c0.condType == c.condType) then
    conds.map (fun c0 => if c0.condType == c.condType then c else c0)
  else conds ++ [c]

/-- NetworkStatus of the NvidiaBMMCluster status. -/
structure NetworkStatus where
  subnetIDs : List (String × String)
  nsgID : String
  ipBlockID : String
deriving DecidableEq, Repr

/-- NvidiaBMMClusterStatus without its conditions list: the
conditions live on the object (below), threaded separately because
the network reconcile steps never read them. -/
structure ClusterStatus where
  ready : Bool
  vpcID : String
  networkStatus : NetworkStatus
deriving DecidableEq, Repr

/-- SiteReference of the cluster spec. -/
structure SiteReference where
  name : String
  id : String
deriving DecidableEq, Repr

/-- One NSG rule of the cluster spec. -/
structure NSGRuleSpec where
  name : String
  direction : String
  protocol : String
  portRange : String
  sourceCIDR : String
  action : String
deriving DecidableEq, Repr

/-- NSGSpec of the cluster spec. -/
structure NSGSpec where
  name : String
  rules : List NSGRuleSpec
deriving DecidableEq, Repr

/-- VPCSpec of the cluster spec. -/
structure VPCSpec where
  name : String
  networkVirtualizationType : String
  labels : List (String × String)
  networkSecurityGroup : Option NSGSpec
deriving DecidableEq, Repr

/-- APIEndpoint: control-plane endpoint host and port. -/
structure APIEndpoint where
  host : String
  port : Nat
deriving DecidableEq, Repr

/-- One subnet of the cluster spec. -/
structure SubnetSpec where
  name : String
  cidr : String
  role : String
deriving DecidableEq, Repr

/-- NvidiaBMMClusterSpec (credential reference elided: the embedded
passes receive the authenticated client directly). -/
structure NvidiaBMMClusterSpec where
  siteRef : SiteReference
  tenantID : String
  vpc : VPCSpec
  subnets : List SubnetSpec
  controlPlaneEndpoint : Option APIEndpoint
deriving DecidableEq, Repr

/-- NvidiaBMMCluster object: metadata the controller reads or
writes, spec and status. -/
structure NvidiaBMMCluster where
  name : String
  finalizers : List String
  deletionTimestampSet : Bool
  spec : NvidiaBMMClusterSpec
  status : ClusterStatus
  conditions : List Condition
deriving DecidableEq, Repr

/-- ctrl.Result: immediate requeue flag and fixed requeue delay in
seconds (zero when unset). -/
structure ReconcileResult where
  requeue : Bool
  requeueAfterSec : Nat
deriving DecidableEq, Repr

/-- Result of one cluster reconcile pass: the patched object, the
remote calls issued in order, the returned ctrl.Result and error. -/
structure ClusterPass where
  cluster : NvidiaBMMCluster
  trace : List RemoteCall
  result : ReconcileResult
  error : Option String
deriving DecidableEq, Repr

/-- The cluster finalizer string. -/
def clusterFinalizer : String := "nvidiabmmcluster.infrastructure.cluster.x-k8s.io"

/-- The machine finalizer string. -/
def machineFinalizer : String := "nvidiabmmmachine.infrastructure.cluster.x-k8s.io"

/-- ClusterScope.SiteID: a direct id wins; a name-based reference is
not implemented; an empty reference is an error. -/
def siteIDof (spec : NvidiaBMMClusterSpec) : Except String String :=
  if spec.siteRef.id ≠ "" then Except.ok spec.siteRef.id
  else if spec.siteRef.name ≠ "" then
    Except.error "site name reference not yet implemented, please use direct ID"
  else Except.error "site reference is empty"

/-- The create half of reconcileVPC: parse the site id, build the
request, call CreateVpc and cache the returned id on status 201. -/
def vpcCreateReq (spec : NvidiaBMMClusterSpec) (siteUUID : String) : CreateVpcReq :=
  { name := spec.vpc.name
    siteId := siteUUID
    netVirtType := spec.vpc.networkVirtualizationType
    labels := if spec.vpc.labels.length > 0 then some spec.vpc.labels else none }

def vpcCreateStep (env : RemoteEnv) (spec : NvidiaBMMClusterSpec) (st : ClusterStatus)
    (siteID : String) : Except String ClusterStatus × List RemoteCall :=
  match parseUUID siteID with
  | none => (Except.error ("invalid site ID " ++ siteID), [])
  | some siteUUID =>
    let req : CreateVpcReq := vpcCreateReq spec siteUUID
    match env.createVpc req with
    | .transportError => (Except.error "failed to create VPC", [.createVpc req])
    | .response status body =>
      if status ≠ 201 then
        (Except.error ("failed to create VPC, status " ++ toString status), [.createVpc req])
      else
        match body with
        | none => (Except.error "unexpected response: no VPC data", [.createVpc req])
        | some b =>
          match b.id with
          | none => (Except.error "VPC ID missing in response", [.createVpc req])
          | some vpcID => (Except.ok { st with vpcID := vpcID }, [.createVpc req])

/-- reconcileVPC: when a cached id exists, verify it by GetVpc; a
transport error or a non-200/bodyless response clears the cached id
and falls through to creation; a 200 response with a body keeps the
cached id and returns; with no cached id, create directly. -/
def reconcileVPC (env : RemoteEnv) (spec : NvidiaBMMClusterSpec) (st : ClusterStatus)
    (siteID : String) : Except String ClusterStatus × List RemoteCall :=
  if st.vpcID ≠ "" then
    match parseUUID st.vpcID with
    | none => (Except.error ("invalid VPC ID " ++ st.vpcID), [])
    | some vpcUUID =>
      match env.getVpc vpcUUID with
      | .transportError =>
        let (r, tr) := vpcCreateStep env spec { st with vpcID := "" } siteID
        (r, .getVpc vpcUUID :: tr)
      | .response status body =>
        if status == 200 && body.isSome then (Except.ok st, [.getVpc vpcUUID])
        else
          let (r, tr) := vpcCreateStep env spec { st with vpcID := "" } siteID
          (r, .getVpc vpcUUID :: tr)
  else vpcCreateStep env spec st siteID

def ipBlockCreateReq (clusterName siteUUID : String) : CreateIpblockReq :=
  { name := clusterName ++ "-ipblock"
    pfx := "10.0.0.0"
    prefixLength := 16
    protocolVersion := "IPv4"
    routingType := "DatacenterOnly"
    siteId := siteUUID }

/-- The create half of ensureIPBlock: one /16 block named after the
cluster, created at the site; the returned id is cached. -/
def ipBlockCreateStep (env : RemoteEnv) (clusterName : String) (st : ClusterStatus)
    (siteID : String) : Except String (String × ClusterStatus) × List RemoteCall :=
  match parseUUID siteID with
  | none => (Except.error ("invalid site ID " ++ siteID), [])
  | some siteUUID =>
    let req : CreateIpblockReq := ipBlockCreateReq clusterName siteUUID
    match env.createIpblock req with
    | .transportError => (Except.error "failed to create IP block", [.createIpblock req])
    | .response status body =>
      if status ≠ 201 then
        (Except.error ("failed to create IP block, status " ++ toString status),
         [.createIpblock req])
      else
        match body with
        | none => (Except.error "IP block ID missing in response", [.createIpblock req])
        | some b =>
          match b.id with
          | none => (Except.error "IP block ID missing in response", [.createIpblock req])
          | some ipBlockID =>
            (Except.ok (ipBlockID,
               { st with networkStatus := { st.networkStatus with ipBlockID := ipBlockID } }),
             [.createIpblock req])

/-- ensureIPBlock: reuse the cached block when its id parses and
GetIpblock answers 200 with a body; otherwise create a new block
(there is no explicit clear, the new id overwrites the old). -/
def ensureIPBlock (env : RemoteEnv) (clusterName : String) (st : ClusterStatus)
    (siteID : String) : Except String (String × ClusterStatus) × List RemoteCall :=
  if st.networkStatus.ipBlockID ≠ "" then
    match parseUUID st.networkStatus.ipBlockID with
    | some ipBlockUUID =>
      match env.getIpblock st.networkStatus.ipBlockID with
      | .transportError =>
        let (r, tr) := ipBlockCreateStep env clusterName st siteID
        (r, .getIpblock st.networkStatus.ipBlockID :: tr)
      | .response status body =>
        if status == 200 && body.isSome then
          (Except.ok (ipBlockUUID, st), [.getIpblock st.networkStatus.ipBlockID])
        else
          let (r, tr) := ipBlockCreateStep env clusterName st siteID
          (r, .getIpblock st.networkStatus.ipBlockID :: tr)
    | none => ipBlockCreateStep env clusterName st siteID
  else ipBlockCreateStep env clusterName st siteID

/-- Write a subnet id into the cached name-to-id mapping. -/
def setSubnetID (st : ClusterStatus) (name id : String) : ClusterStatus :=
  { st with networkStatus :=
      { st.networkStatus with subnetIDs := assocSet st.networkStatus.subnetIDs name id } }

/-- Drop a subnet name from the cached name-to-id mapping. -/
def delSubnetID (st : ClusterStatus) (name : String) : ClusterStatus :=
  { st with networkStatus :=
      { st.networkStatus with subnetIDs := assocDel st.networkStatus.subnetIDs name } }

def subnetCreateReq (sp : SubnetSpec) (vpcUUID ipBlockID : String)
    (prefixLength : Nat) : CreateSubnetReq :=
  { name := sp.name, vpcId := vpcUUID, ipv4BlockId := ipBlockID
    prefixLength := prefixLength }

/-- The create half of one subnet: derive the mask length from the
declared CIDR, build the request against the VPC and IP block, call
CreateSubnet and cache the returned id on status 201. -/
def subnetCreateStep (env : RemoteEnv) (sp : SubnetSpec) (vpcUUID ipBlockID : String)
    (st : ClusterStatus) : Except String ClusterStatus × List RemoteCall :=
  match parseCIDR sp.cidr with
  | .error _ => (Except.error ("failed to parse CIDR for subnet " ++ sp.name), [])
  | .ok (_, prefixLength) =>
    let req : CreateSubnetReq := subnetCreateReq sp vpcUUID ipBlockID prefixLength
    match env.createSubnet req with
    | .transportError =>
      (Except.error ("failed to create subnet " ++ sp.name), [.createSubnet req])
    | .response status body =>
      if status ≠ 201 then
        (Except.error ("failed to create subnet " ++ sp.name ++ ", status " ++ toString status),
         [.createSubnet req])
      else
        match body with
        | none => (Except.error ("subnet ID missing in response for " ++ sp.name),
                   [.createSubnet req])
        | some b =>
          match b.id with
          | none => (Except.error ("subnet ID missing in response for " ++ sp.name),
                     [.createSubnet req])
          | some subnetID => (Except.ok (setSubnetID st sp.name subnetID), [.createSubnet req])

/-- The per-subnet loop of reconcileSubnets: a cached id that parses
and resolves (GetSubnet 200 with body) is kept and the subnet
skipped; a cached id that does not parse or resolve is dropped from
the mapping before recreation; a subnet without a cached id is
created directly. -/
def subnetsLoop (env : RemoteEnv) (vpcUUID ipBlockID : String) :
    List SubnetSpec → ClusterStatus → Except String ClusterStatus × List RemoteCall
  | [], st => (Except.ok st, [])
  | sp :: rest, st =>
    match assocGet st.networkStatus.subnetIDs sp.name with
    | some existingID =>
      match parseUUID existingID with
      | none =>
        match subnetCreateStep env sp vpcUUID ipBlockID (delSubnetID st sp.name) with
        | (.error e, tr) => (Except.error e, tr)
        | (.ok st2, tr) =>
          let (r, tr2) := subnetsLoop env vpcUUID ipBlockID rest st2
          (r, tr ++ tr2)
      | some subnetUUID =>
        match env.getSubnet subnetUUID with
        | .response status body =>
          if status == 200 && body.isSome then
            let (r, tr) := subnetsLoop env vpcUUID ipBlockID rest st
            (r, .getSubnet subnetUUID :: tr)
          else
            match subnetCreateStep env sp vpcUUID ipBlockID (delSubnetID st sp.name) with
            | (.error e, tr) => (Except.error e, .getSubnet subnetUUID :: tr)
            | (.ok st2, tr) =>
              let (r, tr2) := subnetsLoop env vpcUUID ipBlockID rest st2
              (r, .getSubnet subnetUUID :: (tr ++ tr2))
        | .transportError =>
          match subnetCreateStep env sp vpcUUID ipBlockID (delSubnetID st sp.name) with
          | (.error e, tr) => (Except.error e, .getSubnet subnetUUID :: tr)
          | (.ok st2, tr) =>
            let (r, tr2) := subnetsLoop env vpcUUID ipBlockID rest st2
            (r, .getSubnet subnetUUID :: (tr ++ tr2))
    | none =>
      match subnetCreateStep env sp vpcUUID ipBlockID st with
      | (.error e, tr) => (Except.error e, tr)
      | (.ok st2, tr) =>
        let (r, tr2) := subnetsLoop env vpcUUID ipBlockID rest st2
        (r, tr ++ tr2)

/-- reconcileSubnets: require a parseable cached VPC id, ensure the
shared IP block, then run the per-subnet loop. -/
def reconcileSubnets (env : RemoteEnv) (spec : NvidiaBMMClusterSpec) (clusterName : String)
    (st : ClusterStatus) (siteID : String) : Except String ClusterStatus × List RemoteCall :=
  if st.vpcID = "" then (Except.error "VPC ID is empty", [])
  else
    match parseUUID st.vpcID with
    | none => (Except.error ("invalid VPC ID " ++ st.vpcID), [])
    | some vpcUUID =>
      match ensureIPBlock env clusterName st siteID with
      | (.error e, tr) => (Except.error ("failed to ensure IP block: " ++ e), tr)
      | (.ok (ipBlockID, st1), tr) =>
        let (r, tr2) := subnetsLoop env vpcUUID ipBlockID spec.subnets st1
        (r, tr ++ tr2)

/-- Translate the declared NSG rules to the remote enumeration:
direction, protocol and action lower-cased, missing source CIDR
defaulted to any, destination always any, port range mapped onto
the destination port range. -/
def translateNsgRules (rules : List NSGRuleSpec) : List NsgRuleReq :=
  rules.map (fun rule =>
    { name := rule.name
      direction := asciiLower rule.direction
      protocol := asciiLower rule.protocol
      action := asciiLower rule.action
      sourcePfx := if rule.sourceCIDR = "" then "0.0.0.0/0" else rule.sourceCIDR
      destPfx := "0.0.0.0/0"
      destinationPortRange := if rule.portRange ≠ "" then some rule.portRange else none })

def nsgCreateReq (nsgSpec : NSGSpec) (siteUUID : String) : CreateNsgReq :=
  let rules := translateNsgRules nsgSpec.rules
  { name := nsgSpec.name
    siteId := siteUUID
    rules := if rules.length > 0 then some rules else none }

/-- The create half of reconcileNSG. -/
def nsgCreateStep (env : RemoteEnv) (nsgSpec : NSGSpec) (siteUUID : String)
    (st : ClusterStatus) : Except String ClusterStatus × List RemoteCall :=
  let req : CreateNsgReq := nsgCreateReq nsgSpec siteUUID
  match env.createNsg req with
  | .transportError => (Except.error "failed to create NSG", [.createNsg req])
  | .response status body =>
    if status ≠ 201 then
      (Except.error ("failed to create NSG, status " ++ toString status), [.createNsg req])
    else
      match body with
      | none => (Except.error "NSG ID missing in response", [.createNsg req])
      | some b =>
        match b.id with
        | none => (Except.error "NSG ID missing in response", [.createNsg req])
        | some nsgID =>
          (Except.ok { st with networkStatus := { st.networkStatus with nsgID := nsgID } },
           [.createNsg req])

/-- reconcileNSG: parse the site id first; a cached id that still
resolves (GetNetworkSecurityGroup on the raw id, 200 with body) is
kept; otherwise the cached id is cleared and the group recreated. -/
def reconcileNSG (env : RemoteEnv) (nsgSpec : NSGSpec) (st : ClusterStatus)
    (siteID : String) : Except String ClusterStatus × List RemoteCall :=
  match parseUUID siteID with
  | none => (Except.error ("invalid site ID " ++ siteID), [])
  | some siteUUID =>
    if st.networkStatus.nsgID ≠ "" then
      match env.getNsg st.networkStatus.nsgID with
      | .transportError =>
        let (r, tr) :=
          nsgCreateStep env nsgSpec siteUUID
            { st with networkStatus := { st.networkStatus with nsgID := "" } }
        (r, .getNsg st.networkStatus.nsgID :: tr)
      | .response status body =>
        if status == 200 && body.isSome then
          (Except.ok st, [.getNsg st.networkStatus.nsgID])
        else
          let (r, tr) :=
            nsgCreateStep env nsgSpec siteUUID
              { st with networkStatus := { st.networkStatus with nsgID := "" } }
          (r, .getNsg st.networkStatus.nsgID :: tr)
    else nsgCreateStep env nsgSpec siteUUID st

/-- Set a condition on the cluster object. -/
def setClusterCondition (c : NvidiaBMMCluster) (cond : Condition) : NvidiaBMMCluster :=
  { c with conditions := setCondition c.conditions cond }

/-- A true condition with a reason. -/
def condTrue (t reason : String) : Condition :=
  { condType := t, condStatus := true, reason := reason, message := "" }

/-- A false condition with a reason and message. -/
def condFalse (t reason msg : String) : Condition :=
  { condType := t, condStatus := false, reason := reason, message := msg }

/-- NvidiaBMMClusterReconciler.reconcileNormal: attach the finalizer
first (immediate requeue); then resolve the site id and run the VPC,
Subnets and, only when a security group is specified, NSG steps in
order, setting each step's readiness condition true on success or
false with the error message on failure; a failing step aborts the
pass with its error; when every applicable step succeeded, the
ready flag and Ready condition are set true. -/
def reconcileNormal (env : RemoteEnv) (c : NvidiaBMMCluster) : ClusterPass :=
  if ¬ c.finalizers.contains clusterFinalizer then
    { cluster := { c with finalizers := c.finalizers ++ [clusterFinalizer] }
      trace := []
      result := { requeue := true, requeueAfterSec := 0 }
      error := none }
  else
    match siteIDof c.spec with
    | .error e =>
      { cluster := setClusterCondition c (condFalse "VPCReady" "SiteNotFound" e)
        trace := [], result := { requeue := false, requeueAfterSec := 0 }, error := some e }
    | .ok siteID =>
      match reconcileVPC env c.spec c.status siteID with
      | (.error e, tr1) =>
        { cluster := setClusterCondition c (condFalse "VPCReady" "VPCReconcileFailed" e)
          trace := tr1, result := { requeue := false, requeueAfterSec := 0 }, error := some e }
      | (.ok st1, tr1) =>
        let c1 := setClusterCondition { c with status := st1 } (condTrue "VPCReady" "VPCReady")
        match reconcileSubnets env c.spec c.name c1.status siteID with
        | (.error e, tr2) =>
          { cluster :=
              setClusterCondition c1 (condFalse "SubnetsReady" "SubnetReconcileFailed" e)
            trace := tr1 ++ tr2
            result := { requeue := false, requeueAfterSec := 0 }, error := some e }
        | (.ok st2, tr2) =>
          let c2 := setClusterCondition { c1 with status := st2 }
            (condTrue "SubnetsReady" "SubnetsReady")
          let finish (c3 : NvidiaBMMCluster) (tr : List RemoteCall) : ClusterPass :=
            let c4 := { c3 with status := { c3.status with ready := true } }
            { cluster := setClusterCondition c4 (condTrue "Ready" "NvidiaBMMClusterReady")
              trace := tr, result := { requeue := false, requeueAfterSec := 0 }, error := none }
          match c.spec.vpc.networkSecurityGroup with
          | none => finish c2 (tr1 ++ tr2)
          | some nsgSpec =>
            match reconcileNSG env nsgSpec c2.status siteID with
            | (.error e, tr3) =>
              { cluster :=
                  setClusterCondition c2 (condFalse "NSGReady" "NSGReconcileFailed" e)
                trace := tr1 ++ tr2 ++ tr3
                result := { requeue := false, requeueAfterSec := 0 }, error := some e }
            | (.ok st3, tr3) =>
              let c3 := setClusterCondition { c2 with status := st3 }
                (condTrue "NSGReady" "NSGReady")
              finish c3 (tr1 ++ tr2 ++ tr3)

/-- Is a delete-call response status accepted (200 or 204). -/
def deleteStatusOk (status : Nat) : Bool :=
  status == 200 || status == 204

/-- The cached-subnet deletion loop of reconcileDelete: each cached
id must parse; each DeleteSubnet call must answer 200 or 204; the
first failure aborts the loop with an error. -/
def deleteSubnetsLoop (env : RemoteEnv) :
    List (String × String) → Except String Unit × List RemoteCall
  | [] => (Except.ok (), [])
  | (name, id) :: rest =>
    match parseUUID id with
    | none => (Except.error ("invalid subnet ID " ++ id), [])
    | some subnetUUID =>
      match env.deleteSubnet subnetUUID with
      | .transportError =>
        (Except.error ("failed to delete subnet " ++ name), [.deleteSubnet subnetUUID])
      | .response status _ =>
        if deleteStatusOk status then
          let (r, tr) := deleteSubnetsLoop env rest
          (r, .deleteSubnet subnetUUID :: tr)
        else
          (Except.error ("failed to delete subnet " ++ name ++ ", status " ++ toString status),
           [.deleteSubnet subnetUUID])

/-- The security-group step of reconcileDelete: when a cached NSG id
exists, issue DeleteNetworkSecurityGroup on the raw id and require
status 200 or 204. -/
def deleteNsgStep (env : RemoteEnv) (c : NvidiaBMMCluster) :
    Except String Unit × List RemoteCall :=
  if c.status.networkStatus.nsgID ≠ "" then
    match env.deleteNsg c.status.networkStatus.nsgID with
    | .transportError =>
      (Except.error "failed to delete NSG", [.deleteNsg c.status.networkStatus.nsgID])
    | .response status _ =>
      if deleteStatusOk status then
        (Except.ok (), [.deleteNsg c.status.networkStatus.nsgID])
      else
        (Except.error ("failed to delete NSG, status " ++ toString status),
         [.deleteNsg c.status.networkStatus.nsgID])
  else (Except.ok (), [])

/-- The VPC step of reconcileDelete: when a cached VPC id exists,
parse it and issue DeleteVpc, requiring status 200 or 204. -/
def deleteVpcStep (env : RemoteEnv) (c : NvidiaBMMCluster) :
    Except String Unit × List RemoteCall :=
  if c.status.vpcID ≠ "" then
    match parseUUID c.status.vpcID with
    | none => (Except.error ("invalid VPC ID " ++ c.status.vpcID), [])
    | some vpcUUID =>
      match env.deleteVpc vpcUUID with
      | .transportError => (Except.error "failed to delete VPC", [.deleteVpc vpcUUID])
      | .response status _ =>
        if deleteStatusOk status then (Except.ok (), [.deleteVpc vpcUUID])
        else
          (Except.error ("failed to delete VPC, status " ++ toString status),
           [.deleteVpc vpcUUID])
  else (Except.ok (), [])

/-- NvidiaBMMClusterReconciler.reconcileDelete: delete the cached
security group (raw id), then every cached subnet, then the cached
VPC, in that order; any failing call aborts the pass with an error
and the finalizer kept; once every applicable delete succeeded the
finalizer is removed. -/
def reconcileDelete (env : RemoteEnv) (c : NvidiaBMMCluster) : ClusterPass :=
  match deleteNsgStep env c with
  | (.error e, tr) =>
    { cluster := c, trace := tr
      result := { requeue := false, requeueAfterSec := 0 }, error := some e }
  | (.ok _, tr1) =>
    match deleteSubnetsLoop env c.status.networkStatus.subnetIDs with
    | (.error e, tr2) =>
      { cluster := c, trace := tr1 ++ tr2
        result := { requeue := false, requeueAfterSec := 0 }, error := some e }
    | (.ok _, tr2) =>
      match deleteVpcStep env c with
      | (.error e, tr3) =>
        { cluster := c, trace := tr1 ++ tr2 ++ tr3
          result := { requeue := false, requeueAfterSec := 0 }, error := some e }
      | (.ok _, tr3) =>
        { cluster := { c with finalizers := c.finalizers.filter (· ≠ clusterFinalizer) }
          trace := tr1 ++ tr2 ++ tr3
          result := { requeue := false, requeueAfterSec := 0 }, error := none }

/-- NvidiaBMMClusterReconciler.Reconcile after the owner and paused
checks: a set deletion timestamp routes to reconcileDelete,
otherwise to reconcileNormal. -/
def clusterReconcile (env : RemoteEnv) (paused : Bool) (c : NvidiaBMMCluster) : ClusterPass :=
  if paused then
    { cluster := c, trace := []
      result := { requeue := false, requeueAfterSec := 0 }, error := none }
  else if c.deletionTimestampSet then reconcileDelete env c
  else reconcileNormal env c

/-- One machine address (Type is always internal-IP here). -/
structure MachineAddress where
  addrType : String
  address : String
deriving DecidableEq, Repr

/-- The owning Cluster API Machine: the fields the machine
controller reads or writes. -/
structure CapiMachine where
  name : String
  labels : List (String × String)
  bootstrapDataSecretName : Option String
  providerID : String
  addresses : List MachineAddress
deriving DecidableEq, Repr

/-- InstanceTypeSpec of the machine spec. -/
structure InstanceTypeSpec where
  id : String
  machineID : String
  allowUnhealthyMachine : Bool
deriving DecidableEq, Repr

/-- One declared additional interface. -/
structure NetworkInterfaceSpec where
  subnetName : String
  isPhysical : Bool
deriving DecidableEq, Repr

/-- NetworkSpec of the machine spec. -/
structure MachineNetworkSpec where
  subnetName : String
  additionalInterfaces : List NetworkInterfaceSpec
deriving DecidableEq, Repr

/-- NvidiaBMMMachineSpec. -/
structure NvidiaBMMMachineSpec where
  providerID : Option String
  instanceType : InstanceTypeSpec
  network : MachineNetworkSpec
  sshKeyGroups : List String
  labels : List (String × String)
deriving DecidableEq, Repr

/-- NvidiaBMMMachineStatus. -/
structure NvidiaBMMMachineStatus where
  ready : Bool
  instanceID : String
  machineID : String
  instanceState : String
  addresses : List MachineAddress
  conditions : List Condition
deriving DecidableEq, Repr

/-- NvidiaBMMMachine object. -/
structure NvidiaBMMMachine where
  name : String
  finalizers : List String
  deletionTimestampSet : Bool
  spec : NvidiaBMMMachineSpec
  status : NvidiaBMMMachineStatus
deriving DecidableEq, Repr

/-- The three objects one machine reconcile pass reads and writes:
the NvidiaBMMMachine, its owning Machine, and the owning
NvidiaBMMCluster (whose cached network state is read and whose
control-plane endpoint may be adopted). -/
structure MachineWorld where
  machine : NvidiaBMMMachine
  owner : CapiMachine
  cluster : NvidiaBMMCluster
deriving DecidableEq, Repr

/-- Result of one machine reconcile pass. -/
structure MachinePass where
  world : MachineWorld
  trace : List RemoteCall
  result : ReconcileResult
  error : Option String
deriving DecidableEq, Repr

/-- The well-known control-plane label on the owning Machine. -/
def controlPlaneLabel : String := "cluster.x-k8s.io/control-plane"

/-- MachineScope.IsControlPlane: the control-plane label is present
with a non-empty value. -/
def isControlPlane (owner : CapiMachine) : Bool :=
  ((assocGet owner.labels controlPlaneLabel).getD "") ≠ ""

/-- Set a condition on the NvidiaBMMMachine. -/
def setMachineCondition (m : NvidiaBMMMachine) (cond : Condition) : NvidiaBMMMachine :=
  { m with status := { m.status with conditions := setCondition m.status.conditions cond } }

/-- Modelled from the spec: pkg/providerid's NewProviderID/String,
whose source is not in the repository snapshot; the wire format is
scheme, organization, tenant, site and instance UUID, slash
separated (section 6 of the spec and the machine-spec comment). -/
def encodeProviderID (org tenant site u : String) : String :=
  "nvidia-bmm://" ++ org ++ "/" ++ tenant ++ "/" ++ site ++ "/" ++ u

/-- MachineScope.SetProviderID: parse the instance id as a UUID and
write the composed provider id onto both the NvidiaBMMMachine spec
and the owning Machine spec. -/
def setProviderID (orgName tenant site instanceIDStr : String) (w : MachineWorld) :
    Except String MachineWorld :=
  match parseUUID instanceIDStr with
  | none => Except.error ("invalid instance UUID " ++ instanceIDStr)
  | some u =>
    let pid := encodeProviderID orgName tenant site u
    Except.ok
      { w with
        machine := { w.machine with spec := { w.machine.spec with providerID := some pid } }
        owner := { w.owner with providerID := pid } }

/-- MachineScope.GetBootstrapData: the bootstrap secret reference
must be set, the secret must exist, and it must carry the value
key.  The secret store maps a name to none (not found) or to the
optional content of its value key. -/
def getBootstrapData (secrets : String → Option (Option String)) (owner : CapiMachine) :
    Except String String :=
  match owner.bootstrapDataSecretName with
  | none => Except.error "bootstrap data secret name is not set"
  | some name =>
    match secrets name with
    | none => Except.error "failed to get bootstrap secret"
    | some none => Except.error "bootstrap secret missing value key"
    | some (some data) => Except.ok data

/-- Build the additional interfaces of the create request: each
declared interface's subnet name must resolve in the cluster's
cached mapping and parse as a UUID; the physical flag is copied. -/
def buildAdditionalInterfaces (subnetIDs : List (String × String)) :
    List NetworkInterfaceSpec → Except String (List InterfaceReq)
  | [] => Except.ok []
  | i :: rest =>
    match assocGet subnetIDs i.subnetName with
    | none => Except.error ("subnet " ++ i.subnetName ++ " not found in cluster status")
    | some sid =>
      match parseUUID sid with
      | none => Except.error ("invalid subnet ID " ++ sid)
      | some u =>
        (buildAdditionalInterfaces subnetIDs rest).map
          (fun l => { subnetId := u, isPhysical := i.isPhysical } :: l)

/-- Parse each configured SSH key group id as a UUID. -/
def parseKeyGroups : List String → Except String (List String)
  | [] => Except.ok []
  | k :: rest =>
    match parseUUID k with
    | none => Except.error ("invalid SSH key group ID " ++ k)
    | some u => (parseKeyGroups rest).map (u :: ·)

/-- NvidiaBMMMachineReconciler.createInstance: fetch bootstrap data,
resolve the primary subnet from the cluster's cached mapping, build
the primary interface (never physical) plus the declared additional
interfaces, resolve tenant/VPC/site, attach key groups and labels
when present, pick the type-id or specific-machine allocation, and
submit with the bootstrap payload as user data and phone-home
enabled; on success cache instance id, machine id and state and
compose the provider id. -/
def createInstance (env : RemoteEnv) (secrets : String → Option (Option String))
    (orgName : String) (w : MachineWorld) : Except String MachineWorld × List RemoteCall :=
  match getBootstrapData secrets w.owner with
  | .error e => (Except.error ("failed to get bootstrap data: " ++ e), [])
  | .ok bootstrapData =>
    match assocGet w.cluster.status.networkStatus.subnetIDs w.machine.spec.network.subnetName with
    | none =>
      (Except.error ("failed to get subnet ID: subnet " ++ w.machine.spec.network.subnetName
         ++ " not found in cluster status"), [])
    | some subnetID =>
      match parseUUID subnetID with
      | none => (Except.error ("invalid subnet ID " ++ subnetID), [])
      | some subnetUUID =>
        match parseUUID w.cluster.status.vpcID with
        | none => (Except.error ("invalid VPC ID " ++ w.cluster.status.vpcID), [])
        | some vpcUUID =>
          match siteIDof w.cluster.spec with
          | .error e => (Except.error ("failed to get site ID: " ++ e), [])
          | .ok siteName =>
            match parseUUID w.cluster.spec.tenantID with
            | none => (Except.error ("invalid tenant ID " ++ w.cluster.spec.tenantID), [])
            | some tenantUUID =>
              match buildAdditionalInterfaces w.cluster.status.networkStatus.subnetIDs
                  w.machine.spec.network.additionalInterfaces with
              | .error e => (Except.error e, [])
              | .ok extra =>
                match parseKeyGroups w.machine.spec.sshKeyGroups with
                | .error e => (Except.error e, [])
                | .ok keyGroups =>
                  let req : CreateInstanceReq :=
                    { name := w.machine.name
                      tenantId := tenantUUID
                      vpcId := vpcUUID
                      userData := bootstrapData
                      interfaces := { subnetId := subnetUUID, isPhysical := false } :: extra
                      sshKeyGroupIds :=
                        if w.machine.spec.sshKeyGroups.length > 0 then some keyGroups else none
                      labels :=
                        if w.machine.spec.labels.length > 0 then some w.machine.spec.labels
                        else none
                      instanceTypeId :=
                        if w.machine.spec.instanceType.id ≠ "" then
                          parseUUID w.machine.spec.instanceType.id
                        else none
                      machineId :=
                        if w.machine.spec.instanceType.machineID ≠ "" then
                          some w.machine.spec.instanceType.machineID
                        else none
                      phoneHomeEnabled := true }
                  if w.machine.spec.instanceType.id ≠ ""
                      ∧ parseUUID w.machine.spec.instanceType.id = none then
                    (Except.error ("invalid instance type ID " ++ w.machine.spec.instanceType.id),
                     [])
                  else
                    match env.createInstance req with
                    | .transportError => (Except.error "failed to create instance", [.createInstance req])
                    | .response status body =>
                      if status ≠ 200 ∧ status ≠ 201 then
                        (Except.error ("failed to create instance, status " ++ toString status),
                         [.createInstance req])
                      else
                        match body with
                        | none => (Except.error "unexpected response: no instance data",
                                   [.createInstance req])
                        | some inst =>
                          match inst.id with
                          | none => (Except.error "instance ID missing in response",
                                     [.createInstance req])
                          | some instanceID =>
                            let w1 :=
                              { w with machine := { w.machine with status :=
                                  { w.machine.status with
                                    instanceID := instanceID
                                    machineID := inst.machineId.getD ""
                                    instanceState := inst.status.getD "" } } }
                            match setProviderID orgName w.cluster.spec.tenantID siteName
                                instanceID w1 with
                            | .error e =>
                              (Except.error ("failed to set provider ID: " ++ e),
                               [.createInstance req])
                            | .ok w2 => (Except.ok w2, [.createInstance req])

/-- Flatten every interface's IP list into internal machine
addresses, in interface order. -/
def flattenAddresses (ifaces : Option (List InterfaceBody)) : List MachineAddress :=
  match ifaces with
  | none => []
  | some l =>
    (l.map (fun i =>
      (i.ipAddresses.getD []).map
        (fun ip => { addrType := "InternalIP", address := ip : MachineAddress }))).flatten

/-- NvidiaBMMMachineReconciler.reconcileInstance: fetch the remote
instance; mirror state and machine id; flatten discovered addresses
onto both machine objects and set the network-configured condition
when any exist; on the exact state Ready set the ready flag, and
adopt the first discovered address (port 6443) as the cluster's
control-plane endpoint when this machine is a control-plane member
and the endpoint is still unset; any other state requeues after
30 seconds. -/
def reconcileInstance (env : RemoteEnv) (w : MachineWorld) : MachinePass :=
  match parseUUID w.machine.status.instanceID with
  | none =>
    { world := w, trace := []
      result := { requeue := false, requeueAfterSec := 0 }
      error := some ("invalid instance ID " ++ w.machine.status.instanceID) }
  | some instanceUUID =>
    match env.getInstance instanceUUID with
    | .transportError =>
      { world := w, trace := [.getInstance instanceUUID]
        result := { requeue := false, requeueAfterSec := 0 }
        error := some "failed to get instance status" }
    | .response status body =>
      if h : status = 200 ∧ body.isSome then
        let inst := body.get h.2
        let m1 := { w.machine with status :=
          { w.machine.status with
            instanceState :=
              match inst.status with
              | some s => s
              | none => w.machine.status.instanceState
            machineID :=
              match inst.machineId with
              | some mid => mid
              | none => w.machine.status.machineID } }
        let addresses := flattenAddresses inst.interfaces
        let m2 :=
          if addresses.length > 0 then
            setMachineCondition
              { m1 with status := { m1.status with addresses := addresses } }
              (condTrue "NetworkConfigured" "NetworkReady")
          else m1
        let owner2 :=
          if addresses.length > 0 then { w.owner with addresses := addresses } else w.owner
        if inst.status = some "Ready" then
          let m3 := setMachineCondition
            { m2 with status := { m2.status with ready := true } }
            (condTrue "Ready" "NvidiaBMMMachineReady")
          let cluster2 :=
            if isControlPlane owner2
                ∧ (w.cluster.spec.controlPlaneEndpoint = none
                   ∨ (w.cluster.spec.controlPlaneEndpoint.map (·.host)).getD "" = "") then
              if addresses.length > 0 then
                let ep : APIEndpoint :=
                  { host := (addresses.head?.map (·.address)).getD "", port := 6443 }
                { w.cluster with spec :=
                    { w.cluster.spec with controlPlaneEndpoint := some ep } }
              else w.cluster
            else w.cluster
          { world := { machine := m3, owner := owner2, cluster := cluster2 }
            trace := [.getInstance instanceUUID]
            result := { requeue := false, requeueAfterSec := 0 }, error := none }
        else
          { world := { machine := m2, owner := owner2, cluster := w.cluster }
            trace := [.getInstance instanceUUID]
            result := { requeue := false, requeueAfterSec := 30 }, error := none }
      else
        { world := w, trace := [.getInstance instanceUUID]
          result := { requeue := false, requeueAfterSec := 0 }
          error := some ("failed to get instance, status " ++ toString status) }

/-- NvidiaBMMMachineReconciler.reconcileNormal: attach the finalizer
(immediate requeue); with a cached instance id poll via
reconcileInstance; otherwise create, setting InstanceProvisioned
false with the message on failure or true and a 10-second requeue
on success. -/
def machineReconcileNormal (env : RemoteEnv) (secrets : String → Option (Option String))
    (orgName : String) (w : MachineWorld) : MachinePass :=
  if ¬ w.machine.finalizers.contains machineFinalizer then
    { world := { w with machine :=
        { w.machine with finalizers := w.machine.finalizers ++ [machineFinalizer] } }
      trace := [], result := { requeue := true, requeueAfterSec := 0 }, error := none }
  else if w.machine.status.instanceID ≠ "" then reconcileInstance env w
  else
    match createInstance env secrets orgName w with
    | (.error e, tr) =>
      let m1 :=
        setMachineCondition w.machine (condFalse "InstanceProvisioned" "InstanceCreationFailed" e)
      { world := { w with machine := m1 }
        trace := tr, result := { requeue := false, requeueAfterSec := 0 }, error := some e }
    | (.ok w1, tr) =>
      let m1 := setMachineCondition w1.machine (condTrue "InstanceProvisioned" "InstanceCreated")
      { world := { w1 with machine := m1 }
        trace := tr, result := { requeue := false, requeueAfterSec := 10 }, error := none }

/-- NvidiaBMMMachineReconciler.reconcileDelete: with a cached
instance id, parse it and issue the delete call (empty body, the
normal-delete variant); failure keeps the finalizer and returns the
error; success (or no cached instance) removes the finalizer. -/
def machineReconcileDelete (env : RemoteEnv) (w : MachineWorld) : MachinePass :=
  let removeFin : MachineWorld :=
    { w with machine :=
        { w.machine with finalizers := w.machine.finalizers.filter (· ≠ machineFinalizer) } }
  if w.machine.status.instanceID ≠ "" then
    match parseUUID w.machine.status.instanceID with
    | none =>
      { world := w, trace := []
        result := { requeue := false, requeueAfterSec := 0 }
        error := some ("invalid instance ID " ++ w.machine.status.instanceID) }
    | some instanceUUID =>
      match env.deleteInstance instanceUUID with
      | .transportError =>
        { world := w, trace := [.deleteInstance instanceUUID]
          result := { requeue := false, requeueAfterSec := 0 }
          error := some "failed to delete instance" }
      | .response status _ =>
        if deleteStatusOk status then
          { world := removeFin, trace := [.deleteInstance instanceUUID]
            result := { requeue := false, requeueAfterSec := 0 }, error := none }
        else
          { world := w, trace := [.deleteInstance instanceUUID]
            result := { requeue := false, requeueAfterSec := 0 }
            error := some ("failed to delete instance, status " ++ toString status) }
  else
    { world := removeFin, trace := []
      result := { requeue := false, requeueAfterSec := 0 }, error := none }

/-- NvidiaBMMMachineReconciler.Reconcile after the objects are
fetched: the paused check, then the two readiness gates — the
owning cluster's ready flag and the bootstrap-data secret
reference — each producing a 10-second requeue with no error and no
state change when unmet; only past both gates does a set deletion
timestamp route to deletion and otherwise to normal reconciliation. -/
def machineReconcile (env : RemoteEnv) (secrets : String → Option (Option String))
    (orgName : String) (paused : Bool) (w : MachineWorld) : MachinePass :=
  if paused then
    { world := w, trace := []
      result := { requeue := false, requeueAfterSec := 0 }, error := none }
  else if ¬ w.cluster.status.ready then
    { world := w, trace := []
      result := { requeue := false, requeueAfterSec := 10 }, error := none }
  else if w.owner.bootstrapDataSecretName = none then
    { world := w, trace := []
      result := { requeue := false, requeueAfterSec := 10 }, error := none }
  else if w.machine.deletionTimestampSet then machineReconcileDelete env w
  else machineReconcileNormal env secrets orgName w

/-- Strip an expected leading character sequence, or fail. -/
def stripPfx? : List Char → List Char → Option (List Char)
  | [], rest => some rest
  | _ :: _, [] => none
  | p :: ps, c :: cs => if p == c then stripPfx? ps cs else none

/-- The two error classes the identifier decoder distinguishes:
structural (scheme or segment count wrong) and value (last segment
not a UUID). -/
inductive DecodeError where
  | structural
  | value
deriving DecidableEq, Repr

/-- The provider-id scheme marker, as a character list. -/
def schemeChars : List Char := "nvidia-bmm://".toList

/-- Modelled from the spec: pkg/providerid's ParseProviderID, whose
source is not in the repository snapshot.  The grammar is
scheme://org/tenant/site/uuid; a missing scheme marker or a segment
count other than four is a structural error, a last segment that is
not a valid UUID is a value error (spec sections 4.1 and 6).
This is the segment stage: exactly four slash-separated segments,
the last a valid UUID. -/
def decodeSegs (segs : List (List Char)) :
    Except DecodeError (String × String × String × String) :=
  match segs with
  | [org, tenant, site, u] =>
    match parseUUID (String.mk u) with
    | none => Except.error DecodeError.value
    | some uu => Except.ok (String.mk org, String.mk tenant, String.mk site, uu)
  | _ => Except.error DecodeError.structural

/-- Modelled from the spec: the full decoder strips the scheme
marker (missing marker is a structural error) and hands the
remainder's slash-split to the segment stage. -/
def decodeProviderID (s : String) : Except DecodeError (String × String × String × String) :=
  match stripPfx? schemeChars s.toList with
  | none => Except.error DecodeError.structural
  | some rest => decodeSegs (splitChar '/' rest)

theorem splitChar_ne_nil (sep : Char) (l : List Char) : splitChar sep l ≠ [] := by
  cases l with
  | nil => simp [splitChar]
  | cons c rest =>
    simp only [splitChar]
    cases h : splitChar sep rest with
    | nil => simp
    | cons g gs =>
      by_cases hc : c == sep <;> simp [hc]

theorem splitChar_cons_sep (sep : Char) (rest : List Char) :
    splitChar sep (sep :: rest) = [] :: splitChar sep rest := by
  simp only [splitChar]
  cases h : splitChar sep rest with
  | nil => exact absurd h (splitChar_ne_nil sep rest)
  | cons g gs => simp

theorem splitChar_no_sep_append (sep : Char) (a rest : List Char)
    (h : ∀ c ∈ a, c ≠ sep) :
    splitChar sep (a ++ sep :: rest) = a :: splitChar sep rest := by
  induction a with
  | nil => simpa using splitChar_cons_sep sep rest
  | cons c cs ih =>
    have hc : c ≠ sep := h c (by simp)
    have ih2 := ih (fun x hx => h x (by simp [hx]))
    simp only [List.cons_append, splitChar, List.append_eq]
    rw [ih2]
    simp [hc]

theorem splitChar_no_sep (sep : Char) (a : List Char) (h : ∀ c ∈ a, c ≠ sep) :
    splitChar sep a = [a] := by
  induction a with
  | nil => simp [splitChar]
  | cons c cs ih =>
    have hc : c ≠ sep := h c (by simp)
    have ih2 := ih (fun x hx => h x (by simp [hx]))
    simp [splitChar, ih2, hc]

theorem stripPfx_iff (pre l rest : List Char) :
    stripPfx? pre l = some rest ↔ l = pre ++ rest := by
  induction pre generalizing l with
  | nil => simp [stripPfx?]
  | cons p ps ih =>
    cases l with
    | nil => simp [stripPfx?]
    | cons c cs =>
      simp only [stripPfx?, List.cons_append]
      by_cases hpc : p = c
      · subst hpc
        simp [ih]
      · rw [if_neg (by simpa using hpc)]
        constructor
        · intro h
          exact absurd h (by simp)
        · intro h
          injection h with h1 _
          exact absurd h1.symm hpc

theorem uuidCharsOk_no_slash (l : List Char) (i : Nat) (h : uuidCharsOk i l = true) :
    ∀ c ∈ l, c ≠ '/' := by
  induction l generalizing i with
  | nil => simp
  | cons c cs ih =>
    simp only [uuidCharsOk, Bool.and_eq_true] at h
    intro x hx
    rw [List.mem_cons] at hx
    cases hx with
    | inl hx =>
      subst hx
      by_cases hi : (i == 8 || i == 13 || i == 18 || i == 23) = true
      · rw [if_pos hi] at h
        have hx2 : x = '-' := by simpa using h.1
        rw [hx2]
        decide
      · rw [if_neg hi] at h
        intro hslash
        rw [hslash] at h
        exact absurd h.1 (by decide)
    | inr hx => exact ih (i + 1) h.2 x hx

theorem parseUUID_no_slash (s u : String) (h : parseUUID s = some u) :
    ∀ c ∈ s.toList, c ≠ '/' := by
  unfold parseUUID at h
  by_cases hc : isCanonicalUUID s = true
  · have h2 : uuidCharsOk 0 s.toList = true := by
      unfold isCanonicalUUID at hc
      simpa using (Bool.and_eq_true _ _ |>.mp hc).2
    exact uuidCharsOk_no_slash s.toList 0 h2
  · rw [if_neg hc] at h
    exact absurd h (by simp)

theorem string_toList_append (a b : String) : (a ++ b).toList = a.toList ++ b.toList :=
  rfl

theorem slash_toList : ("/" : String).toList = ['/'] := rfl

theorem scheme_toList : ("nvidia-bmm://" : String).toList = schemeChars := rfl

theorem string_mk_toList (s : String) : String.mk s.toList = s := rfl

/-- Claim C6: the identifier codec round-trips exactly — for every
4-tuple whose first three segments are slash-free and whose last is
a valid UUID (already in its rendered canonical form),
decode (encode org tenant site u) = (org, tenant, site, u); a
string without the scheme marker, or whose remainder does not split
into exactly four segments, decodes to a structural error; a string
matching the grammar whose last segment is not a valid UUID decodes
to a value error. -/
theorem c6_codec_roundtrip :
    (∀ org tenant site u : String,
      (∀ c ∈ org.toList, c ≠ '/') → (∀ c ∈ tenant.toList, c ≠ '/') →
      (∀ c ∈ site.toList, c ≠ '/') → parseUUID u = some u →
      decodeProviderID (encodeProviderID org tenant site u) =
        Except.ok (org, tenant, site, u))
    ∧ (∀ s : String, (∀ rest, s.toList ≠ schemeChars ++ rest) →
        decodeProviderID s = Except.error DecodeError.structural)
    ∧ (∀ (s : String) (rest : List Char), s.toList = schemeChars ++ rest →
        (splitChar '/' rest).length ≠ 4 →
        decodeProviderID s = Except.error DecodeError.structural)
    ∧ (∀ (s : String) (rest o t si u : List Char),
        s.toList = schemeChars ++ rest → splitChar '/' rest = [o, t, si, u] →
        parseUUID (String.mk u) = none →
        decodeProviderID s = Except.error DecodeError.value) := by
  refine ⟨?_, ?_, ?_, ?_⟩
  · intro org tenant site u ho ht hs hu
    have hu2 : ∀ c ∈ u.toList, c ≠ '/' := parseUUID_no_slash u u hu
    have htl : (encodeProviderID org tenant site u).toList
        = schemeChars ++ (org.toList ++ '/' ::
            (tenant.toList ++ '/' :: (site.toList ++ '/' :: u.toList))) := by
      unfold encodeProviderID
      simp only [string_toList_append, slash_toList, scheme_toList, List.append_assoc,
        List.singleton_append, List.cons_append, List.nil_append]
    have e1 : decodeProviderID (encodeProviderID org tenant site u)
        = decodeSegs (splitChar '/' (org.toList ++ '/' ::
            (tenant.toList ++ '/' :: (site.toList ++ '/' :: u.toList)))) := by
      unfold decodeProviderID
      rw [htl, (stripPfx_iff schemeChars _ _).mpr rfl]
    rw [e1, splitChar_no_sep_append '/' org.toList _ ho,
        splitChar_no_sep_append '/' tenant.toList _ ht,
        splitChar_no_sep_append '/' site.toList _ hs,
        splitChar_no_sep '/' u.toList hu2]
    simp only [decodeSegs, string_mk_toList, hu]
  · intro s hns
    unfold decodeProviderID
    cases h : stripPfx? schemeChars s.toList with
    | none => rfl
    | some rest => exact absurd ((stripPfx_iff _ _ _).mp h) (hns rest)
  · intro s rest hlist hlen
    have e1 : decodeProviderID s = decodeSegs (splitChar '/' rest) := by
      unfold decodeProviderID
      rw [hlist, (stripPfx_iff schemeChars _ _).mpr rfl]
    rw [e1]
    rcases hsp : splitChar '/' rest with _ | ⟨a, _ | ⟨b, _ | ⟨c, _ | ⟨d, _ | ⟨e, l5⟩⟩⟩⟩⟩
      <;> rw [hsp] at hlen <;> first | rfl | exact absurd rfl hlen
  · intro s rest o t si u hlist hsp hpu
    have e1 : decodeProviderID s = decodeSegs (splitChar '/' rest) := by
      unfold decodeProviderID
      rw [hlist, (stripPfx_iff schemeChars _ _).mpr rfl]
    rw [e1, hsp]
    simp only [decodeSegs, hpu]

/-- Witness for C6 at concrete inputs: a full round trip, a
structural error from a wrong scheme, a structural error from a
wrong segment count, and a value error from a malformed UUID. -/
theorem c6_codec_roundtrip_witness :
    decodeProviderID
        (encodeProviderID "acme" "tnt" "site1" "550e8400-e29b-41d4-a716-446655440000")
      = Except.ok ("acme", "tnt", "site1", "550e8400-e29b-41d4-a716-446655440000")
    ∧ decodeProviderID "x" = Except.error DecodeError.structural
    ∧ decodeProviderID "nvidia-bmm://a/b/c" = Except.error DecodeError.structural
    ∧ decodeProviderID "nvidia-bmm://a/b/c/zz" = Except.error DecodeError.value := by
  refine ⟨?_, ?_, ?_, ?_⟩
  · exact c6_codec_roundtrip.1 "acme" "tnt" "site1" "550e8400-e29b-41d4-a716-446655440000"
      (by decide) (by decide) (by decide) (by decide)
  · exact c6_codec_roundtrip.2.1 "x"
      (by
        intro rest h
        have h2 := congrArg List.length h
        rw [List.length_append] at h2
        have h3 : schemeChars.length = 13 := rfl
        simp at h2
        omega)
  · exact c6_codec_roundtrip.2.2.1 "nvidia-bmm://a/b/c" "a/b/c".toList rfl (by decide)
  · exact c6_codec_roundtrip.2.2.2 "nvidia-bmm://a/b/c/zz" "a/b/c/zz".toList
      "a".toList "b".toList "c".toList "zz".toList rfl (by decide) (by decide)

/-- A remote platform answering every call with a transport error,
used only to instantiate theorems at concrete inputs. -/
def trivialEnv : RemoteEnv where
  getVpc _ := .transportError
  createVpc _ := .transportError
  getIpblock _ := .transportError
  createIpblock _ := .transportError
  getSubnet _ := .transportError
  createSubnet _ := .transportError
  getNsg _ := .transportError
  createNsg _ := .transportError
  deleteNsg _ := .transportError
  deleteSubnet _ := .transportError
  deleteVpc _ := .transportError
  getInstance _ := .transportError
  createInstance _ := .transportError
  deleteInstance _ := .transportError

/-- An empty secret store. -/
def noSecrets : String → Option (Option String) := fun _ => none

/-- A sample cluster spec mirroring the repository's test fixture. -/
def sampleClusterSpec : NvidiaBMMClusterSpec where
  siteRef := { name := "", id := "550e8400-e29b-41d4-a716-446655440000" }
  tenantID := "660e8400-e29b-41d4-a716-446655440001"
  vpc := { name := "test-vpc", networkVirtualizationType := "ETHERNET_VIRTUALIZER"
           labels := [], networkSecurityGroup := none }
  subnets := [{ name := "control-plane", cidr := "10.0.1.0/24", role := "control-plane" }]
  controlPlaneEndpoint := none

/-- A sample not-yet-ready cluster object. -/
def sampleCluster : NvidiaBMMCluster where
  name := "test-cluster"
  finalizers := [clusterFinalizer]
  deletionTimestampSet := false
  spec := sampleClusterSpec
  status :=
    { ready := false, vpcID := ""
      networkStatus := { subnetIDs := [], nsgID := "", ipBlockID := "" } }
  conditions := []

/-- A sample machine world gated on the cluster's ready flag. -/
def gateWorld : MachineWorld where
  machine :=
    { name := "test-machine"
      finalizers := [machineFinalizer]
      deletionTimestampSet := false
      spec :=
        { providerID := none
          instanceType := { id := "", machineID := "", allowUnhealthyMachine := false }
          network := { subnetName := "control-plane", additionalInterfaces := [] }
          sshKeyGroups := [], labels := [] }
      status :=
        { ready := false, instanceID := "", machineID := "", instanceState := ""
          addresses := [], conditions := [] } }
  owner :=
    { name := "test-machine", labels := [], bootstrapDataSecretName := none
      providerID := "", addresses := [] }
  cluster := sampleCluster

/-- Claim C1: a machine reconcile pass that is not deleting and
whose gate is unmet — owning cluster not ready or bootstrap-data
reference unset — issues no remote call, changes nothing, and
returns a 10-second fixed-delay requeue with no error, so the
machine's cached InstanceID (in particular an empty one) is left
exactly as it was. -/
theorem c1_gate_no_progress (env : RemoteEnv) (secrets : String → Option (Option String))
    (orgName : String) (w : MachineWorld)
    (hdel : w.machine.deletionTimestampSet = false)
    (hgate : w.cluster.status.ready = false ∨ w.owner.bootstrapDataSecretName = none) :
    machineReconcile env secrets orgName false w =
      { world := w, trace := []
        result := { requeue := false, requeueAfterSec := 10 }, error := none }
    ∧ (machineReconcile env secrets orgName false w).world.machine.status.instanceID
        = w.machine.status.instanceID := by
  have h : machineReconcile env secrets orgName false w =
      { world := w, trace := []
        result := { requeue := false, requeueAfterSec := 10 }, error := none } := by
    rcases hgate with hg | hg
    · simp [machineReconcile, hg]
    · cases hcr : w.cluster.status.ready <;> simp [machineReconcile, hg, hcr]
  exact ⟨h, by rw [h]⟩

/-- Witness for C1: the sample gated world satisfies the gate
hypotheses and its pass is the unchanged 10-second requeue. -/
theorem c1_gate_no_progress_witness :
    gateWorld.machine.deletionTimestampSet = false
    ∧ (gateWorld.cluster.status.ready = false ∨ gateWorld.owner.bootstrapDataSecretName = none)
    ∧ machineReconcile trivialEnv noSecrets "test-org" false gateWorld =
        { world := gateWorld, trace := []
          result := { requeue := false, requeueAfterSec := 10 }, error := none } :=
  ⟨rfl, Or.inl rfl,
    (c1_gate_no_progress trivialEnv noSecrets "test-org" gateWorld rfl (Or.inl rfl)).1⟩

/-- Claim C10: even with the deletion timestamp set, an unmet gate —
cluster not ready or bootstrap reference unset — short-circuits the
pass before the deletion branch: no instance delete call is issued,
the finalizer is not removed, and the pass returns the 10-second
requeue, because the gate checks precede the deletion-timestamp
check. -/
theorem c10_deletion_gated (env : RemoteEnv) (secrets : String → Option (Option String))
    (orgName : String) (w : MachineWorld)
    (hdel : w.machine.deletionTimestampSet = true)
    (hgate : w.cluster.status.ready = false ∨ w.owner.bootstrapDataSecretName = none) :
    machineReconcile env secrets orgName false w =
      { world := w, trace := []
        result := { requeue := false, requeueAfterSec := 10 }, error := none }
    ∧ (machineReconcile env secrets orgName false w).world.machine.finalizers
        = w.machine.finalizers
    ∧ (machineReconcile env secrets orgName false w).trace = [] := by
  have h : machineReconcile env secrets orgName false w =
      { world := w, trace := []
        result := { requeue := false, requeueAfterSec := 10 }, error := none } := by
    rcases hgate with hg | hg
    · simp [machineReconcile, hg]
    · cases hcr : w.cluster.status.ready <;> simp [machineReconcile, hg, hcr]
  exact ⟨h, by rw [h], by rw [h]⟩

/-- Witness for C10: the sample gated world with its deletion
timestamp set still gets the unchanged 10-second requeue. -/
theorem c10_deletion_gated_witness :
    ({ gateWorld with machine :=
        { gateWorld.machine with deletionTimestampSet := true } }).machine.deletionTimestampSet
      = true
    ∧ machineReconcile trivialEnv noSecrets "test-org" false
        { gateWorld with machine := { gateWorld.machine with deletionTimestampSet := true } } =
      { world :=
          { gateWorld with machine := { gateWorld.machine with deletionTimestampSet := true } }
        trace := [], result := { requeue := false, requeueAfterSec := 10 }, error := none } :=
  ⟨rfl,
    (c10_deletion_gated trivialEnv noSecrets "test-org"
      { gateWorld with machine := { gateWorld.machine with deletionTimestampSet := true } }
      rfl (Or.inl rfl)).1⟩

/-- Does the environment answer the delete call with an accepted
status (200 or 204). -/
def deleteCallOk (env : RemoteEnv) : RemoteCall → Bool
  | .deleteNsg id =>
    match env.deleteNsg id with
    | .response s _ => deleteStatusOk s
    | .transportError => false
  | .deleteSubnet id =>
    match env.deleteSubnet id with
    | .response s _ => deleteStatusOk s
    | .transportError => false
  | .deleteVpc id =>
    match env.deleteVpc id with
    | .response s _ => deleteStatusOk s
    | .transportError => false
  | _ => false

/-- The full reverse-order delete sequence of a cluster whose cached
ids are all present and canonical: the security group first, then
every cached subnet in mapping order, then the VPC. -/
def clusterDeleteSeq (c : NvidiaBMMCluster) : List RemoteCall :=
  RemoteCall.deleteNsg c.status.networkStatus.nsgID ::
    (c.status.networkStatus.subnetIDs.map (fun p => RemoteCall.deleteSubnet p.2)
      ++ [RemoteCall.deleteVpc c.status.vpcID])

theorem deleteSubnetsLoop_cases (env : RemoteEnv) (ids : List (String × String))
    (hparse : ∀ p ∈ ids, parseUUID p.2 = some p.2) :
    (deleteSubnetsLoop env ids
        = (Except.ok (), ids.map (fun p => RemoteCall.deleteSubnet p.2))
      ∧ ∀ p ∈ ids, deleteCallOk env (RemoteCall.deleteSubnet p.2) = true)
    ∨ (∃ e pre cc post,
        (deleteSubnetsLoop env ids).1 = Except.error e
        ∧ ids.map (fun p => RemoteCall.deleteSubnet p.2) = pre ++ cc :: post
        ∧ (deleteSubnetsLoop env ids).2 = pre ++ [cc]
        ∧ (∀ x ∈ pre, deleteCallOk env x = true) ∧ deleteCallOk env cc = false) := by
  induction ids with
  | nil =>
    left
    exact ⟨rfl, by simp⟩
  | cons p rest ih =>
    have hp : parseUUID p.2 = some p.2 := hparse p (by simp)
    have hrest := ih (fun q hq => hparse q (by simp [hq]))
    cases henv : env.deleteSubnet p.2 with
    | transportError =>
      right
      refine ⟨"failed to delete subnet " ++ p.1, [], RemoteCall.deleteSubnet p.2,
        rest.map (fun q => RemoteCall.deleteSubnet q.2), ?_, by simp, ?_, by simp, ?_⟩
      · simp only [deleteSubnetsLoop, hp, henv]
      · simp only [deleteSubnetsLoop, hp, henv]
        simp
      · simp [deleteCallOk, henv]
    | response s body =>
      by_cases hs : deleteStatusOk s = true
      · cases hrest with
        | inl hok =>
          left
          constructor
          · simp only [deleteSubnetsLoop, hp, henv, hs, if_pos hs, hok.1]
            simp
          · intro q hq
            rw [List.mem_cons] at hq
            cases hq with
            | inl hq => rw [hq]; simp [deleteCallOk, henv, hs]
            | inr hq => exact hok.2 q hq
        | inr herr =>
          obtain ⟨e, pre, cc, post, h1, h2, h3, h4, h5⟩ := herr
          right
          refine ⟨e, RemoteCall.deleteSubnet p.2 :: pre, cc, post, ?_, ?_, ?_, ?_, h5⟩
          · simp only [deleteSubnetsLoop, hp, henv, if_pos hs]
            cases hll : deleteSubnetsLoop env rest with
            | mk r tr =>
              rw [hll] at h1
              simp at h1
              simp [h1]
          · simp [h2]
          · simp only [deleteSubnetsLoop, hp, henv, if_pos hs]
            cases hll : deleteSubnetsLoop env rest with
            | mk r tr =>
              rw [hll] at h3
              simp at h3
              simp [h3]
          · intro x hx
            rw [List.mem_cons] at hx
            cases hx with
            | inl hx => rw [hx]; simp [deleteCallOk, henv, hs]
            | inr hx => exact h4 x hx
      · right
        refine ⟨"failed to delete subnet " ++ p.1 ++ ", status " ++ toString s, [],
          RemoteCall.deleteSubnet p.2, rest.map (fun q => RemoteCall.deleteSubnet q.2),
          ?_, by simp, ?_, by simp, ?_⟩
        · simp only [deleteSubnetsLoop, hp, henv, if_neg hs]
        · simp only [deleteSubnetsLoop, hp, henv, if_neg hs]
          simp
        · simp [deleteCallOk, henv, hs]

theorem deleteNsgStep_cases (env : RemoteEnv) (c : NvidiaBMMCluster)
    (hn : c.status.networkStatus.nsgID ≠ "") :
    (deleteNsgStep env c
        = (Except.ok (), [RemoteCall.deleteNsg c.status.networkStatus.nsgID])
      ∧ deleteCallOk env (RemoteCall.deleteNsg c.status.networkStatus.nsgID) = true)
    ∨ (∃ e, deleteNsgStep env c
        = (Except.error e, [RemoteCall.deleteNsg c.status.networkStatus.nsgID])
      ∧ deleteCallOk env (RemoteCall.deleteNsg c.status.networkStatus.nsgID) = false) := by
  unfold deleteNsgStep
  rw [if_pos hn]
  cases henv : env.deleteNsg c.status.networkStatus.nsgID with
  | transportError =>
    right
    exact ⟨"failed to delete NSG", by simp, by simp [deleteCallOk, henv]⟩
  | response s body =>
    by_cases hs : deleteStatusOk s = true
    · left
      exact ⟨by simp [hs], by simp [deleteCallOk, henv, hs]⟩
    · right
      exact ⟨"failed to delete NSG, status " ++ toString s, by simp [hs],
        by simp [deleteCallOk, henv, hs]⟩

theorem deleteVpcStep_cases (env : RemoteEnv) (c : NvidiaBMMCluster)
    (hv : c.status.vpcID ≠ "") (hvp : parseUUID c.status.vpcID = some c.status.vpcID) :
    (deleteVpcStep env c = (Except.ok (), [RemoteCall.deleteVpc c.status.vpcID])
      ∧ deleteCallOk env (RemoteCall.deleteVpc c.status.vpcID) = true)
    ∨ (∃ e, deleteVpcStep env c
        = (Except.error e, [RemoteCall.deleteVpc c.status.vpcID])
      ∧ deleteCallOk env (RemoteCall.deleteVpc c.status.vpcID) = false) := by
  unfold deleteVpcStep
  rw [if_pos hv, hvp]
  cases henv : env.deleteVpc c.status.vpcID with
  | transportError =>
    right
    exact ⟨"failed to delete VPC", by simp [henv], by simp [deleteCallOk, henv]⟩
  | response s body =>
    by_cases hs : deleteStatusOk s = true
    · left
      exact ⟨by simp [henv, hs], by simp [deleteCallOk, henv, hs]⟩
    · right
      exact ⟨"failed to delete VPC, status " ++ toString s, by simp [henv, hs],
        by simp [deleteCallOk, henv, hs]⟩

/-- Claim C2: with cached NSG, subnet and VPC ids (canonical UUIDs
for the parsed ones), a cluster deletion pass issues its delete
calls as a prefix of the fixed sequence NSG first, then every
cached subnet, then the VPC; when the pass ends without error the
whole sequence was issued, every call was accepted, and the
finalizer was removed; when any single call fails the pass stops
right after it — every earlier call accepted, the failing call
rejected, nothing after it attempted — returns the error, and
leaves the object (finalizer included) untouched. -/
theorem c2_delete_order (env : RemoteEnv) (c : NvidiaBMMCluster)
    (hn : c.status.networkStatus.nsgID ≠ "")
    (hv : c.status.vpcID ≠ "")
    (hvp : parseUUID c.status.vpcID = some c.status.vpcID)
    (hsp : ∀ p ∈ c.status.networkStatus.subnetIDs, parseUUID p.2 = some p.2) :
    ((reconcileDelete env c).trace <+: clusterDeleteSeq c)
    ∧ ((reconcileDelete env c).error = none →
        (reconcileDelete env c).trace = clusterDeleteSeq c
        ∧ (∀ x ∈ clusterDeleteSeq c, deleteCallOk env x = true)
        ∧ (reconcileDelete env c).cluster.finalizers
            = c.finalizers.filter (· ≠ clusterFinalizer))
    ∧ (∀ e, (reconcileDelete env c).error = some e →
        (reconcileDelete env c).cluster = c
        ∧ ∃ pre cc, (reconcileDelete env c).trace = pre ++ [cc]
          ∧ (pre ++ [cc]) <+: clusterDeleteSeq c
          ∧ (∀ x ∈ pre, deleteCallOk env x = true)
          ∧ deleteCallOk env cc = false) := by
  rcases deleteNsgStep_cases env c hn with ⟨hns, hnok⟩ | ⟨e1, hns, hnbad⟩
  · rcases deleteSubnetsLoop_cases env c.status.networkStatus.subnetIDs hsp with
      ⟨hlok, hlall⟩ | ⟨e2, pre, cc, post, hl1, hl2, hl3, hl4, hl5⟩
    · rcases deleteVpcStep_cases env c hv hvp with ⟨hvs, hvok⟩ | ⟨e3, hvs, hvbad⟩
      · have hpass : reconcileDelete env c =
            { cluster := { c with finalizers := c.finalizers.filter (· ≠ clusterFinalizer) }
              trace := [RemoteCall.deleteNsg c.status.networkStatus.nsgID]
                ++ c.status.networkStatus.subnetIDs.map (fun p => RemoteCall.deleteSubnet p.2)
                ++ [RemoteCall.deleteVpc c.status.vpcID]
              result := { requeue := false, requeueAfterSec := 0 }, error := none } := by
          unfold reconcileDelete
          rw [hns, hlok, hvs]
        have htr : (reconcileDelete env c).trace = clusterDeleteSeq c := by
          rw [hpass, clusterDeleteSeq]
          simp
        refine ⟨by rw [htr], fun _ => ⟨htr, ?_, by rw [hpass]⟩, fun e he => ?_⟩
        · intro x hx
          rw [clusterDeleteSeq, List.mem_cons] at hx
          rcases hx with hx | hx
          · rw [hx]; exact hnok
          · rw [List.mem_append] at hx
            rcases hx with hx | hx
            · obtain ⟨p, hp, hpx⟩ := List.mem_map.mp hx
              rw [← hpx]; exact hlall p hp
            · simp at hx
              rw [hx]; exact hvok
        · rw [hpass] at he
          exact absurd he (by simp)
      · have hpass : reconcileDelete env c =
            { cluster := c
              trace := [RemoteCall.deleteNsg c.status.networkStatus.nsgID]
                ++ c.status.networkStatus.subnetIDs.map (fun p => RemoteCall.deleteSubnet p.2)
                ++ [RemoteCall.deleteVpc c.status.vpcID]
              result := { requeue := false, requeueAfterSec := 0 }, error := some e3 } := by
          unfold reconcileDelete
          rw [hns, hlok, hvs]
        refine ⟨?_, ?_, fun e he => ?_⟩
        · rw [hpass, clusterDeleteSeq]
          exact ⟨[], by simp⟩
        · rw [hpass]
          simp
        · refine ⟨by rw [hpass],
            RemoteCall.deleteNsg c.status.networkStatus.nsgID ::
              c.status.networkStatus.subnetIDs.map (fun p => RemoteCall.deleteSubnet p.2),
            RemoteCall.deleteVpc c.status.vpcID, ?_, ?_, ?_, hvbad⟩
          · rw [hpass]
            simp
          · rw [clusterDeleteSeq]
            exact ⟨[], by simp⟩
          · intro x hx
            rw [List.mem_cons] at hx
            rcases hx with hx | hx
            · rw [hx]; exact hnok
            · obtain ⟨p, hp, hpx⟩ := List.mem_map.mp hx
              rw [← hpx]; exact hlall p hp
    · obtain ⟨r, tr, hll⟩ : ∃ r tr, deleteSubnetsLoop env c.status.networkStatus.subnetIDs
          = (r, tr) := ⟨_, _, rfl⟩
      rw [hll] at hl1 hl3
      simp only at hl1 hl3
      subst hl1 hl3
      have hpass : reconcileDelete env c =
          { cluster := c
            trace := [RemoteCall.deleteNsg c.status.networkStatus.nsgID] ++ (pre ++ [cc])
            result := { requeue := false, requeueAfterSec := 0 }, error := some e2 } := by
        unfold reconcileDelete
        rw [hns, hll]
      refine ⟨?_, ?_, fun e he => ?_⟩
      · rw [hpass, clusterDeleteSeq, hl2]
        exact ⟨post ++ [RemoteCall.deleteVpc c.status.vpcID], by simp⟩
      · rw [hpass]
        simp
      · refine ⟨by rw [hpass],
          RemoteCall.deleteNsg c.status.networkStatus.nsgID :: pre, cc, ?_, ?_, ?_, hl5⟩
        · rw [hpass]
          simp
        · rw [clusterDeleteSeq, hl2]
          exact ⟨post ++ [RemoteCall.deleteVpc c.status.vpcID], by simp⟩
        · intro x hx
          rw [List.mem_cons] at hx
          rcases hx with hx | hx
          · rw [hx]; exact hnok
          · exact hl4 x hx
  · have hpass : reconcileDelete env c =
        { cluster := c
          trace := [RemoteCall.deleteNsg c.status.networkStatus.nsgID]
          result := { requeue := false, requeueAfterSec := 0 }, error := some e1 } := by
      unfold reconcileDelete
      rw [hns]
    refine ⟨?_, ?_, fun e he => ?_⟩
    · rw [hpass, clusterDeleteSeq]
      exact ⟨c.status.networkStatus.subnetIDs.map (fun p => RemoteCall.deleteSubnet p.2)
        ++ [RemoteCall.deleteVpc c.status.vpcID], by simp⟩
    · rw [hpass]
      simp
    · refine ⟨by rw [hpass], [], RemoteCall.deleteNsg c.status.networkStatus.nsgID,
        by rw [hpass]; simp, ?_, by simp, hnbad⟩
      rw [clusterDeleteSeq]
      exact ⟨c.status.networkStatus.subnetIDs.map (fun p => RemoteCall.deleteSubnet p.2)
        ++ [RemoteCall.deleteVpc c.status.vpcID], by simp⟩

/-- A remote platform accepting every delete call. -/
def delEnv : RemoteEnv :=
  { trivialEnv with
    deleteNsg := fun _ => .response 204 (some ())
    deleteSubnet := fun _ => .response 200 (some ())
    deleteVpc := fun _ => .response 204 (some ()) }

/-- A cluster with cached NSG, subnet and VPC ids, ready to delete. -/
def delCluster : NvidiaBMMCluster :=
  { sampleCluster with
    deletionTimestampSet := true
    status :=
      { ready := true
        vpcID := "550e8400-e29b-41d4-a716-446655440002"
        networkStatus :=
          { subnetIDs := [("control-plane", "550e8400-e29b-41d4-a716-446655440003"),
                          ("workers", "550e8400-e29b-41d4-a716-446655440004")]
            nsgID := "nsg-1", ipBlockID := "" } } }

/-- Witness for C2: against an all-accepting remote the sample
deletion pass issues exactly the NSG-subnets-VPC sequence and
removes the finalizer. -/
theorem c2_delete_order_witness :
    (reconcileDelete delEnv delCluster).trace <+: clusterDeleteSeq delCluster
    ∧ (reconcileDelete delEnv delCluster).trace = clusterDeleteSeq delCluster
    ∧ (reconcileDelete delEnv delCluster).cluster.finalizers
        = delCluster.finalizers.filter (· ≠ clusterFinalizer) := by
  have h := c2_delete_order delEnv delCluster (by decide) (by decide) (by decide) (by decide)
  exact ⟨h.1, (h.2.1 (by decide)).1, (h.2.1 (by decide)).2.2⟩

/-- Current value of a condition type, as observers read it. -/
def getCondition (conds : List Condition) (t : String) : Option Condition :=
  conds.find? (fun c0 => c0.condType == t)

theorem find?_append_neg {p : Condition → Bool} (l : List Condition) (cond : Condition)
    (h : p cond = false) : (l ++ [cond]).find? p = l.find? p := by
  induction l with
  | nil => simp only [List.nil_append, List.find?, h]
  | cons a l ih =>
    cases hpa : p a with
    | true => simp only [List.cons_append, List.find?, hpa]
    | false =>
      simp only [List.cons_append, List.find?, hpa]
      exact ih

theorem find?_append_single_of_none {p : Condition → Bool} (l : List Condition)
    (cond : Condition) (hnone : l.find? p = none) (hp : p cond = true) :
    (l ++ [cond]).find? p = some cond := by
  induction l with
  | nil => simp only [List.nil_append, List.find?, hp]
  | cons a l2 ih =>
    cases hpa : p a with
    | true =>
      simp only [List.find?, hpa] at hnone
      exact absurd hnone (by simp)
    | false =>
      simp only [List.find?, hpa] at hnone
      simp only [List.cons_append, List.find?, hpa]
      exact ih hnone

theorem find?_map_set (t : String) (cond : Condition) (conds : List Condition)
    (hc : cond.condType = t)
    (h : conds.any (fun c0 => c0.condType == t) = true) :
    (conds.map (fun c0 => if c0.condType == t then cond else c0)).find?
      (fun c0 => c0.condType == t) = some cond := by
  induction conds with
  | nil => simp at h
  | cons c0 rest ih =>
    by_cases h0 : (c0.condType == t) = true
    · simp only [List.map_cons, if_pos h0, List.find?]
      have : (cond.condType == t) = true := by simp [hc]
      rw [this]
    · rw [List.any_cons] at h
      simp only [h0, Bool.false_or] at h
      simp only [List.map_cons, if_neg h0, List.find?]
      rw [show (c0.condType == t) = false from by simpa using h0]
      exact ih h

theorem find?_map_set_other (t : String) (cond : Condition) (conds : List Condition)
    (ht : (cond.condType == t) = false) :
    (conds.map (fun c0 => if c0.condType == cond.condType then cond else c0)).find?
      (fun c0 => c0.condType == t) = conds.find? (fun c0 => c0.condType == t) := by
  induction conds with
  | nil => rfl
  | cons c0 rest ih =>
    by_cases h0 : (c0.condType == cond.condType) = true
    · have hc0 : (c0.condType == t) = false := by
        have he : c0.condType = cond.condType := by simpa using h0
        rw [he]
        exact ht
      simp only [List.map_cons, if_pos h0, List.find?, ht, hc0]
      exact ih
    · simp only [List.map_cons, if_neg h0, List.find?]
      cases hp : (c0.condType == t) with
      | true => rfl
      | false => exact ih

theorem getCondition_set_same (conds : List Condition) (cond : Condition) :
    getCondition (setCondition conds cond) cond.condType = some cond := by
  unfold getCondition setCondition
  by_cases h : conds.any (fun c0 => c0.condType == cond.condType) = true
  · rw [if_pos h]
    exact find?_map_set cond.condType cond conds rfl h
  · rw [if_neg h]
    have hnone : conds.find? (fun c0 => c0.condType == cond.condType) = none := by
      rw [List.find?_eq_none]
      intro x hx hpx
      rw [List.any_eq_true] at h
      exact h ⟨x, hx, hpx⟩
    exact find?_append_single_of_none conds cond hnone (by simp)

theorem getCondition_set_other (conds : List Condition) (cond : Condition) (t : String)
    (ht : (cond.condType == t) = false) :
    getCondition (setCondition conds cond) t = getCondition conds t := by
  unfold getCondition setCondition
  by_cases h : conds.any (fun c0 => c0.condType == cond.condType) = true
  · rw [if_pos h]
    exact find?_map_set_other t cond conds ht
  · rw [if_neg h]
    exact find?_append_neg conds cond ht

theorem vpcCreateStep_frame (env : RemoteEnv) (spec : NvidiaBMMClusterSpec)
    (st : ClusterStatus) (siteID : String) (st1 : ClusterStatus) (tr : List RemoteCall)
    (h : vpcCreateStep env spec st siteID = (Except.ok st1, tr)) :
    st1.ready = st.ready ∧ st1.networkStatus = st.networkStatus := by
  unfold vpcCreateStep at h
  repeat' (first | (split at h) | (dsimp only at h))
  all_goals (
    rw [Prod.mk.injEq] at h
    obtain ⟨h1, h2⟩ := h
    first
      | exact Except.noConfusion h1
      | (injection h1 with h1
         subst h1
         exact ⟨rfl, rfl⟩))

theorem reconcileVPC_frame (env : RemoteEnv) (spec : NvidiaBMMClusterSpec)
    (st : ClusterStatus) (siteID : String) (st1 : ClusterStatus) (tr : List RemoteCall)
    (h : reconcileVPC env spec st siteID = (Except.ok st1, tr)) :
    st1.ready = st.ready ∧ st1.networkStatus.nsgID = st.networkStatus.nsgID
      ∧ st1.networkStatus.ipBlockID = st.networkStatus.ipBlockID := by
  unfold reconcileVPC at h
  repeat' (first | (split at h) | (dsimp only at h))
  all_goals try (
    rw [Prod.mk.injEq] at h
    obtain ⟨h1, h2⟩ := h
    first
      | exact Except.noConfusion h1
      | (injection h1 with h1
         subst h1
         exact ⟨rfl, rfl, rfl⟩))
  all_goals try (
    have hfr := vpcCreateStep_frame env spec st siteID st1 tr h
    exact ⟨hfr.1, by rw [hfr.2], by rw [hfr.2]⟩)
  all_goals (
    rename_i r tr2 heq
    cases r with
    | error e => exact absurd h (by simp)
    | ok stc =>
      have hfr := vpcCreateStep_frame env spec _ siteID stc tr2 heq
      rw [Prod.mk.injEq] at h
      obtain ⟨h1, h2⟩ := h
      injection h1 with h1
      subst h1
      exact ⟨hfr.1, by rw [hfr.2], by rw [hfr.2]⟩)

theorem ipBlockCreateStep_frame (env : RemoteEnv) (clusterName : String)
    (st : ClusterStatus) (siteID : String) (ipb : String) (st1 : ClusterStatus)
    (tr : List RemoteCall)
    (h : ipBlockCreateStep env clusterName st siteID = (Except.ok (ipb, st1), tr)) :
    st1.ready = st.ready ∧ st1.vpcID = st.vpcID
      ∧ st1.networkStatus.nsgID = st.networkStatus.nsgID
      ∧ st1.networkStatus.subnetIDs = st.networkStatus.subnetIDs := by
  unfold ipBlockCreateStep at h
  repeat' (first | (split at h) | (dsimp only at h))
  all_goals (
    rw [Prod.mk.injEq] at h
    obtain ⟨h1, h2⟩ := h
    first
      | exact Except.noConfusion h1
      | (injection h1 with h1
         rw [Prod.mk.injEq] at h1
         obtain ⟨_, h1⟩ := h1
         subst h1
         exact ⟨rfl, rfl, rfl, rfl⟩))

theorem ensureIPBlock_frame (env : RemoteEnv) (clusterName : String)
    (st : ClusterStatus) (siteID : String) (ipb : String) (st1 : ClusterStatus)
    (tr : List RemoteCall)
    (h : ensureIPBlock env clusterName st siteID = (Except.ok (ipb, st1), tr)) :
    st1.ready = st.ready ∧ st1.vpcID = st.vpcID
      ∧ st1.networkStatus.nsgID = st.networkStatus.nsgID
      ∧ st1.networkStatus.subnetIDs = st.networkStatus.subnetIDs := by
  unfold ensureIPBlock at h
  repeat' (first | (split at h) | (dsimp only at h))
  all_goals try (
    exact ipBlockCreateStep_frame env clusterName st siteID ipb st1 tr h)
  all_goals try (
    rw [Prod.mk.injEq] at h
    obtain ⟨h1, h2⟩ := h
    injection h1 with h1
    rw [Prod.mk.injEq] at h1
    obtain ⟨_, h1⟩ := h1
    subst h1
    exact ⟨rfl, rfl, rfl, rfl⟩)
  all_goals (
    rename_i r tr2 heq
    cases r with
    | error e => exact absurd h (by simp)
    | ok p =>
      rw [Prod.mk.injEq] at h
      obtain ⟨h1, h2⟩ := h
      injection h1 with h1
      subst h1
      exact ipBlockCreateStep_frame env clusterName st siteID _ _ _ heq)

theorem subnetCreateStep_frame (env : RemoteEnv) (sp : SubnetSpec) (v ipb : String)
    (st : ClusterStatus) (st1 : ClusterStatus) (tr : List RemoteCall)
    (h : subnetCreateStep env sp v ipb st = (Except.ok st1, tr)) :
    st1.ready = st.ready ∧ st1.vpcID = st.vpcID
      ∧ st1.networkStatus.nsgID = st.networkStatus.nsgID
      ∧ st1.networkStatus.ipBlockID = st.networkStatus.ipBlockID := by
  unfold subnetCreateStep at h
  repeat' (first | (split at h) | (dsimp only at h))
  all_goals (
    rw [Prod.mk.injEq] at h
    obtain ⟨h1, h2⟩ := h
    first
      | exact Except.noConfusion h1
      | (injection h1 with h1
         subst h1
         exact ⟨rfl, rfl, rfl, rfl⟩))

theorem subnetsLoop_frame (env : RemoteEnv) (v ipb : String) (subs : List SubnetSpec) :
    ∀ st st2 tr, subnetsLoop env v ipb subs st = (Except.ok st2, tr) →
      st2.ready = st.ready ∧ st2.vpcID = st.vpcID
        ∧ st2.networkStatus.nsgID = st.networkStatus.nsgID := by
  induction subs with
  | nil =>
    intro st st2 tr h
    rw [subnetsLoop] at h
    rw [Prod.mk.injEq] at h
    obtain ⟨h1, _⟩ := h
    injection h1 with h1
    subst h1
    exact ⟨rfl, rfl, rfl⟩
  | cons sp rest ih =>
    intro st st2 tr h
    have key : ∀ (st1 stc : ClusterStatus) (trc : List RemoteCall)
        (r : Except String ClusterStatus) (tr2 : List RemoteCall),
        subnetCreateStep env sp v ipb st1 = (Except.ok stc, trc) →
        subnetsLoop env v ipb rest stc = (r, tr2) →
        r = Except.ok st2 →
        st2.ready = st1.ready ∧ st2.vpcID = st1.vpcID
          ∧ st2.networkStatus.nsgID = st1.networkStatus.nsgID := by
      intro st1 stc trc r tr2 hcs hl h1
      subst h1
      have hf1 := subnetCreateStep_frame env sp v ipb st1 stc trc hcs
      have hf2 := ih stc st2 tr2 hl
      exact ⟨hf2.1.trans hf1.1, hf2.2.1.trans hf1.2.1, hf2.2.2.trans hf1.2.2.1⟩
    rw [subnetsLoop] at h
    cases hg : assocGet st.networkStatus.subnetIDs sp.name with
    | none =>
      rw [hg] at h
      dsimp only at h
      cases hcs : subnetCreateStep env sp v ipb st with
      | mk rc trc =>
        rw [hcs] at h
        cases rc with
        | error e => exact absurd h (by simp)
        | ok stc =>
          dsimp only at h
          cases hl : subnetsLoop env v ipb rest stc with
          | mk r tr2 =>
            rw [hl] at h
            dsimp only at h
            rw [Prod.mk.injEq] at h
            exact key st stc trc r tr2 hcs hl h.1
    | some existingID =>
      rw [hg] at h
      dsimp only at h
      cases hp : parseUUID existingID with
      | none =>
        rw [hp] at h
        dsimp only at h
        cases hcs : subnetCreateStep env sp v ipb (delSubnetID st sp.name) with
        | mk rc trc =>
          rw [hcs] at h
          cases rc with
          | error e => exact absurd h (by simp)
          | ok stc =>
            dsimp only at h
            cases hl : subnetsLoop env v ipb rest stc with
            | mk r tr2 =>
              rw [hl] at h
              dsimp only at h
              rw [Prod.mk.injEq] at h
              exact key (delSubnetID st sp.name) stc trc r tr2 hcs hl h.1
      | some su =>
        rw [hp] at h
        dsimp only at h
        cases hgo : env.getSubnet su with
        | transportError =>
          rw [hgo] at h
          dsimp only at h
          cases hcs : subnetCreateStep env sp v ipb (delSubnetID st sp.name) with
          | mk rc trc =>
            rw [hcs] at h
            cases rc with
            | error e => exact absurd h (by simp)
            | ok stc =>
              dsimp only at h
              cases hl : subnetsLoop env v ipb rest stc with
              | mk r tr2 =>
                rw [hl] at h
                dsimp only at h
                rw [Prod.mk.injEq] at h
                exact key (delSubnetID st sp.name) stc trc r tr2 hcs hl h.1
        | response s b =>
          rw [hgo] at h
          dsimp only at h
          by_cases hsb : (s == 200 && b.isSome) = true
          · rw [if_pos hsb] at h
            cases hl : subnetsLoop env v ipb rest st with
            | mk r tr2 =>
              rw [hl] at h
              dsimp only at h
              rw [Prod.mk.injEq] at h
              obtain ⟨h1, h2⟩ := h
              subst h1
              exact ih st st2 tr2 hl
          · rw [if_neg hsb] at h
            cases hcs : subnetCreateStep env sp v ipb (delSubnetID st sp.name) with
            | mk rc trc =>
              rw [hcs] at h
              cases rc with
              | error e => exact absurd h (by simp)
              | ok stc =>
                dsimp only at h
                cases hl : subnetsLoop env v ipb rest stc with
                | mk r tr2 =>
                  rw [hl] at h
                  dsimp only at h
                  rw [Prod.mk.injEq] at h
                  exact key (delSubnetID st sp.name) stc trc r tr2 hcs hl h.1

theorem reconcileSubnets_frame (env : RemoteEnv) (spec : NvidiaBMMClusterSpec)
    (clusterName : String) (st : ClusterStatus) (siteID : String) (st2 : ClusterStatus)
    (tr : List RemoteCall)
    (h : reconcileSubnets env spec clusterName st siteID = (Except.ok st2, tr)) :
    st2.ready = st.ready ∧ st2.vpcID = st.vpcID
      ∧ st2.networkStatus.nsgID = st.networkStatus.nsgID := by
  unfold reconcileSubnets at h
  by_cases hv : st.vpcID = ""
  · rw [if_pos hv] at h
    exact absurd h (by simp)
  · rw [if_neg hv] at h
    cases hp : parseUUID st.vpcID with
    | none =>
      rw [hp] at h
      exact absurd h (by simp)
    | some vu =>
      rw [hp] at h
      dsimp only at h
      cases hib : ensureIPBlock env clusterName st siteID with
      | mk ri tri =>
        rw [hib] at h
        cases ri with
        | error e => exact absurd h (by simp)
        | ok p =>
          obtain ⟨ipb, st1⟩ := p
          dsimp only at h
          cases hl : subnetsLoop env vu ipb spec.subnets st1 with
          | mk r tr2 =>
            rw [hl] at h
            dsimp only at h
            rw [Prod.mk.injEq] at h
            obtain ⟨h1, h2⟩ := h
            subst h1
            have hf1 := ensureIPBlock_frame env clusterName st siteID ipb st1 tri hib
            have hf2 := subnetsLoop_frame env vu ipb spec.subnets st1 st2 tr2 hl
            exact ⟨hf2.1.trans hf1.1, hf2.2.1.trans hf1.2.1, hf2.2.2.trans hf1.2.2.1⟩

/-- Claim C3: in a converging pass (finalizer attached, site id
resolved) each step owns a distinct readiness condition — VPCReady,
SubnetsReady, and NSGReady only when a security group is specified —
set true on success and false with the error message on failure; a
failing step ends the pass with its error and leaves the ready flag
as it was, and the overall ready flag is set true (with the Ready
condition) exactly when every applicable step succeeded in the
pass. -/
theorem c3_conditions (env : RemoteEnv) (c : NvidiaBMMCluster) (siteID : String)
    (hfin : c.finalizers.contains clusterFinalizer = true)
    (hsite : siteIDof c.spec = Except.ok siteID) :
    (∀ e tr, reconcileVPC env c.spec c.status siteID = (Except.error e, tr) →
      (reconcileNormal env c).error = some e
      ∧ getCondition (reconcileNormal env c).cluster.conditions "VPCReady"
          = some (condFalse "VPCReady" "VPCReconcileFailed" e)
      ∧ (reconcileNormal env c).cluster.status.ready = c.status.ready)
    ∧ (∀ st1 tr1 e tr2, reconcileVPC env c.spec c.status siteID = (Except.ok st1, tr1) →
        reconcileSubnets env c.spec c.name st1 siteID = (Except.error e, tr2) →
      (reconcileNormal env c).error = some e
      ∧ getCondition (reconcileNormal env c).cluster.conditions "VPCReady"
          = some (condTrue "VPCReady" "VPCReady")
      ∧ getCondition (reconcileNormal env c).cluster.conditions "SubnetsReady"
          = some (condFalse "SubnetsReady" "SubnetReconcileFailed" e)
      ∧ (reconcileNormal env c).cluster.status.ready = c.status.ready)
    ∧ (∀ nsgSpec st1 tr1 st2 tr2 e tr3,
        c.spec.vpc.networkSecurityGroup = some nsgSpec →
        reconcileVPC env c.spec c.status siteID = (Except.ok st1, tr1) →
        reconcileSubnets env c.spec c.name st1 siteID = (Except.ok st2, tr2) →
        reconcileNSG env nsgSpec st2 siteID = (Except.error e, tr3) →
      (reconcileNormal env c).error = some e
      ∧ getCondition (reconcileNormal env c).cluster.conditions "VPCReady"
          = some (condTrue "VPCReady" "VPCReady")
      ∧ getCondition (reconcileNormal env c).cluster.conditions "SubnetsReady"
          = some (condTrue "SubnetsReady" "SubnetsReady")
      ∧ getCondition (reconcileNormal env c).cluster.conditions "NSGReady"
          = some (condFalse "NSGReady" "NSGReconcileFailed" e)
      ∧ (reconcileNormal env c).cluster.status.ready = c.status.ready)
    ∧ (∀ st1 tr1 st2 tr2,
        c.spec.vpc.networkSecurityGroup = none →
        reconcileVPC env c.spec c.status siteID = (Except.ok st1, tr1) →
        reconcileSubnets env c.spec c.name st1 siteID = (Except.ok st2, tr2) →
      (reconcileNormal env c).error = none
      ∧ (reconcileNormal env c).cluster.status.ready = true
      ∧ getCondition (reconcileNormal env c).cluster.conditions "VPCReady"
          = some (condTrue "VPCReady" "VPCReady")
      ∧ getCondition (reconcileNormal env c).cluster.conditions "SubnetsReady"
          = some (condTrue "SubnetsReady" "SubnetsReady")
      ∧ getCondition (reconcileNormal env c).cluster.conditions "Ready"
          = some (condTrue "Ready" "NvidiaBMMClusterReady"))
    ∧ (∀ nsgSpec st1 tr1 st2 tr2 st3 tr3,
        c.spec.vpc.networkSecurityGroup = some nsgSpec →
        reconcileVPC env c.spec c.status siteID = (Except.ok st1, tr1) →
        reconcileSubnets env c.spec c.name st1 siteID = (Except.ok st2, tr2) →
        reconcileNSG env nsgSpec st2 siteID = (Except.ok st3, tr3) →
      (reconcileNormal env c).error = none
      ∧ (reconcileNormal env c).cluster.status.ready = true
      ∧ getCondition (reconcileNormal env c).cluster.conditions "VPCReady"
          = some (condTrue "VPCReady" "VPCReady")
      ∧ getCondition (reconcileNormal env c).cluster.conditions "SubnetsReady"
          = some (condTrue "SubnetsReady" "SubnetsReady")
      ∧ getCondition (reconcileNormal env c).cluster.conditions "NSGReady"
          = some (condTrue "NSGReady" "NSGReady")
      ∧ getCondition (reconcileNormal env c).cluster.conditions "Ready"
          = some (condTrue "Ready" "NvidiaBMMClusterReady")) := by
  refine ⟨?_, ?_, ?_, ?_, ?_⟩
  · intro e tr hvpc
    have hP : reconcileNormal env c =
        { cluster := setClusterCondition c (condFalse "VPCReady" "VPCReconcileFailed" e)
          trace := tr, result := { requeue := false, requeueAfterSec := 0 }
          error := some e } := by
      unfold reconcileNormal
      rw [if_neg (by rw [hfin]; simp), hsite]
      dsimp only
      rw [hvpc]
    rw [hP]
    exact ⟨rfl, getCondition_set_same c.conditions _, rfl⟩
  · intro st1 tr1 e tr2 hvpc hsub
    have hP : reconcileNormal env c =
        { cluster := setClusterCondition
            (setClusterCondition { c with status := st1 } (condTrue "VPCReady" "VPCReady"))
            (condFalse "SubnetsReady" "SubnetReconcileFailed" e)
          trace := tr1 ++ tr2
          result := { requeue := false, requeueAfterSec := 0 }
          error := some e } := by
      unfold reconcileNormal
      rw [if_neg (by rw [hfin]; simp), hsite]
      dsimp only
      rw [hvpc]
      dsimp only [setClusterCondition]
      rw [hsub]
    rw [hP]
    refine ⟨rfl, ?_, ?_, ?_⟩
    · rw [show (setClusterCondition
          (setClusterCondition { c with status := st1 } (condTrue "VPCReady" "VPCReady"))
          (condFalse "SubnetsReady" "SubnetReconcileFailed" e)).conditions
        = setCondition (setCondition c.conditions (condTrue "VPCReady" "VPCReady"))
            (condFalse "SubnetsReady" "SubnetReconcileFailed" e) from rfl]
      exact (getCondition_set_other
          (setCondition c.conditions (condTrue "VPCReady" "VPCReady"))
          (condFalse "SubnetsReady" "SubnetReconcileFailed" e) "VPCReady" rfl).trans
        (getCondition_set_same c.conditions (condTrue "VPCReady" "VPCReady"))
    · exact getCondition_set_same _ _
    · exact (reconcileVPC_frame env c.spec c.status siteID st1 tr1 hvpc).1
  · intro nsgSpec st1 tr1 st2 tr2 e tr3 hnsgSpec hvpc hsub hnsg
    have hP : reconcileNormal env c =
        { cluster := setClusterCondition
            (setClusterCondition
              (setClusterCondition { c with status := st2 } (condTrue "VPCReady" "VPCReady"))
              (condTrue "SubnetsReady" "SubnetsReady"))
            (condFalse "NSGReady" "NSGReconcileFailed" e)
          trace := tr1 ++ tr2 ++ tr3
          result := { requeue := false, requeueAfterSec := 0 }
          error := some e } := by
      unfold reconcileNormal
      rw [if_neg (by rw [hfin]; simp), hsite]
      dsimp only
      rw [hvpc]
      dsimp only [setClusterCondition]
      rw [hsub]
      dsimp only
      rw [hnsgSpec]
      dsimp only
      rw [hnsg]
    rw [hP]
    refine ⟨rfl, ?_, ?_, ?_, ?_⟩
    · rw [show (setClusterCondition (setClusterCondition
            (setClusterCondition { c with status := st2 } (condTrue "VPCReady" "VPCReady"))
            (condTrue "SubnetsReady" "SubnetsReady"))
          (condFalse "NSGReady" "NSGReconcileFailed" e)).conditions
        = setCondition (setCondition (setCondition c.conditions
            (condTrue "VPCReady" "VPCReady")) (condTrue "SubnetsReady" "SubnetsReady"))
            (condFalse "NSGReady" "NSGReconcileFailed" e) from rfl]
      exact (getCondition_set_other
          (setCondition (setCondition c.conditions (condTrue "VPCReady" "VPCReady"))
            (condTrue "SubnetsReady" "SubnetsReady"))
          (condFalse "NSGReady" "NSGReconcileFailed" e) "VPCReady" rfl).trans
        ((getCondition_set_other (setCondition c.conditions (condTrue "VPCReady" "VPCReady"))
            (condTrue "SubnetsReady" "SubnetsReady") "VPCReady" rfl).trans
          (getCondition_set_same c.conditions (condTrue "VPCReady" "VPCReady")))
    · rw [show (setClusterCondition (setClusterCondition
            (setClusterCondition { c with status := st2 } (condTrue "VPCReady" "VPCReady"))
            (condTrue "SubnetsReady" "SubnetsReady"))
          (condFalse "NSGReady" "NSGReconcileFailed" e)).conditions
        = setCondition (setCondition (setCondition c.conditions
            (condTrue "VPCReady" "VPCReady")) (condTrue "SubnetsReady" "SubnetsReady"))
            (condFalse "NSGReady" "NSGReconcileFailed" e) from rfl]
      exact (getCondition_set_other
          (setCondition (setCondition c.conditions (condTrue "VPCReady" "VPCReady"))
            (condTrue "SubnetsReady" "SubnetsReady"))
          (condFalse "NSGReady" "NSGReconcileFailed" e) "SubnetsReady" rfl).trans
        (getCondition_set_same (setCondition c.conditions (condTrue "VPCReady" "VPCReady"))
          (condTrue "SubnetsReady" "SubnetsReady"))
    · exact getCondition_set_same _ _
    · have hf1 := reconcileVPC_frame env c.spec c.status siteID st1 tr1 hvpc
      have hf2 := reconcileSubnets_frame env c.spec c.name st1 siteID st2 tr2 hsub
      exact hf2.1.trans hf1.1
  · intro st1 tr1 st2 tr2 hnone hvpc hsub
    have hP : reconcileNormal env c =
        { cluster := setClusterCondition
            { (setClusterCondition
                (setClusterCondition { c with status := st2 } (condTrue "VPCReady" "VPCReady"))
                (condTrue "SubnetsReady" "SubnetsReady")) with
              status := { st2 with ready := true } }
            (condTrue "Ready" "NvidiaBMMClusterReady")
          trace := tr1 ++ tr2
          result := { requeue := false, requeueAfterSec := 0 }
          error := none } := by
      unfold reconcileNormal
      rw [if_neg (by rw [hfin]; simp), hsite]
      dsimp only
      rw [hvpc]
      dsimp only [setClusterCondition]
      rw [hsub]
      dsimp only
      rw [hnone]
    rw [hP]
    refine ⟨rfl, rfl, ?_, ?_, ?_⟩
    · rw [show (setClusterCondition
            { (setClusterCondition
                (setClusterCondition { c with status := st2 } (condTrue "VPCReady" "VPCReady"))
                (condTrue "SubnetsReady" "SubnetsReady")) with
              status := { st2 with ready := true } }
            (condTrue "Ready" "NvidiaBMMClusterReady")).conditions
        = setCondition (setCondition (setCondition c.conditions
            (condTrue "VPCReady" "VPCReady")) (condTrue "SubnetsReady" "SubnetsReady"))
            (condTrue "Ready" "NvidiaBMMClusterReady") from rfl]
      exact (getCondition_set_other
          (setCondition (setCondition c.conditions (condTrue "VPCReady" "VPCReady"))
            (condTrue "SubnetsReady" "SubnetsReady"))
          (condTrue "Ready" "NvidiaBMMClusterReady") "VPCReady" rfl).trans
        ((getCondition_set_other (setCondition c.conditions (condTrue "VPCReady" "VPCReady"))
            (condTrue "SubnetsReady" "SubnetsReady") "VPCReady" rfl).trans
          (getCondition_set_same c.conditions (condTrue "VPCReady" "VPCReady")))
    · rw [show (setClusterCondition
            { (setClusterCondition
                (setClusterCondition { c with status := st2 } (condTrue "VPCReady" "VPCReady"))
                (condTrue "SubnetsReady" "SubnetsReady")) with
              status := { st2 with ready := true } }
            (condTrue "Ready" "NvidiaBMMClusterReady")).conditions
        = setCondition (setCondition (setCondition c.conditions
            (condTrue "VPCReady" "VPCReady")) (condTrue "SubnetsReady" "SubnetsReady"))
            (condTrue "Ready" "NvidiaBMMClusterReady") from rfl]
      exact (getCondition_set_other
          (setCondition (setCondition c.conditions (condTrue "VPCReady" "VPCReady"))
            (condTrue "SubnetsReady" "SubnetsReady"))
          (condTrue "Ready" "NvidiaBMMClusterReady") "SubnetsReady" rfl).trans
        (getCondition_set_same (setCondition c.conditions (condTrue "VPCReady" "VPCReady"))
          (condTrue "SubnetsReady" "SubnetsReady"))
    · exact getCondition_set_same _ _
  · intro nsgSpec st1 tr1 st2 tr2 st3 tr3 hnsgSpec hvpc hsub hnsg
    have hP : reconcileNormal env c =
        { cluster := setClusterCondition
            { (setClusterCondition
                (setClusterCondition
                  (setClusterCondition { c with status := st3 } (condTrue "VPCReady" "VPCReady"))
                  (condTrue "SubnetsReady" "SubnetsReady"))
                (condTrue "NSGReady" "NSGReady")) with
              status := { st3 with ready := true } }
            (condTrue "Ready" "NvidiaBMMClusterReady")
          trace := tr1 ++ tr2 ++ tr3
          result := { requeue := false, requeueAfterSec := 0 }
          error := none } := by
      unfold reconcileNormal
      rw [if_neg (by rw [hfin]; simp), hsite]
      dsimp only
      rw [hvpc]
      dsimp only [setClusterCondition]
      rw [hsub]
      dsimp only
      rw [hnsgSpec]
      dsimp only
      rw [hnsg]
    rw [hP]
    refine ⟨rfl, rfl, ?_, ?_, ?_, ?_⟩
    · rw [show (setClusterCondition
            { (setClusterCondition
                (setClusterCondition
                  (setClusterCondition { c with status := st3 } (condTrue "VPCReady" "VPCReady"))
                  (condTrue "SubnetsReady" "SubnetsReady"))
                (condTrue "NSGReady" "NSGReady")) with
              status := { st3 with ready := true } }
            (condTrue "Ready" "NvidiaBMMClusterReady")).conditions
        = setCondition (setCondition (setCondition (setCondition c.conditions
            (condTrue "VPCReady" "VPCReady")) (condTrue "SubnetsReady" "SubnetsReady"))
            (condTrue "NSGReady" "NSGReady")) (condTrue "Ready" "NvidiaBMMClusterReady")
          from rfl]
      exact (getCondition_set_other
          (setCondition (setCondition (setCondition c.conditions
              (condTrue "VPCReady" "VPCReady")) (condTrue "SubnetsReady" "SubnetsReady"))
            (condTrue "NSGReady" "NSGReady"))
          (condTrue "Ready" "NvidiaBMMClusterReady") "VPCReady" rfl).trans
        ((getCondition_set_other
            (setCondition (setCondition c.conditions (condTrue "VPCReady" "VPCReady"))
              (condTrue "SubnetsReady" "SubnetsReady"))
            (condTrue "NSGReady" "NSGReady") "VPCReady" rfl).trans
          ((getCondition_set_other
              (setCondition c.conditions (condTrue "VPCReady" "VPCReady"))
              (condTrue "SubnetsReady" "SubnetsReady") "VPCReady" rfl).trans
            (getCondition_set_same c.conditions (condTrue "VPCReady" "VPCReady"))))
    · rw [show (setClusterCondition
            { (setClusterCondition
                (setClusterCondition
                  (setClusterCondition { c with status := st3 } (condTrue "VPCReady" "VPCReady"))
                  (condTrue "SubnetsReady" "SubnetsReady"))
                (condTrue "NSGReady" "NSGReady")) with
              status := { st3 with ready := true } }
            (condTrue "Ready" "NvidiaBMMClusterReady")).conditions
        = setCondition (setCondition (setCondition (setCondition c.conditions
            (condTrue "VPCReady" "VPCReady")) (condTrue "SubnetsReady" "SubnetsReady"))
            (condTrue "NSGReady" "NSGReady")) (condTrue "Ready" "NvidiaBMMClusterReady")
          from rfl]
      exact (getCondition_set_other
          (setCondition (setCondition (setCondition c.conditions
              (condTrue "VPCReady" "VPCReady")) (condTrue "SubnetsReady" "SubnetsReady"))
            (condTrue "NSGReady" "NSGReady"))
          (condTrue "Ready" "NvidiaBMMClusterReady") "SubnetsReady" rfl).trans
        ((getCondition_set_other
            (setCondition (setCondition c.conditions (condTrue "VPCReady" "VPCReady"))
              (condTrue "SubnetsReady" "SubnetsReady"))
            (condTrue "NSGReady" "NSGReady") "SubnetsReady" rfl).trans
          (getCondition_set_same (setCondition c.conditions (condTrue "VPCReady" "VPCReady"))
            (condTrue "SubnetsReady" "SubnetsReady")))
    · rw [show (setClusterCondition
            { (setClusterCondition
                (setClusterCondition
                  (setClusterCondition { c with status := st3 } (condTrue "VPCReady" "VPCReady"))
                  (condTrue "SubnetsReady" "SubnetsReady"))
                (condTrue "NSGReady" "NSGReady")) with
              status := { st3 with ready := true } }
            (condTrue "Ready" "NvidiaBMMClusterReady")).conditions
        = setCondition (setCondition (setCondition (setCondition c.conditions
            (condTrue "VPCReady" "VPCReady")) (condTrue "SubnetsReady" "SubnetsReady"))
            (condTrue "NSGReady" "NSGReady")) (condTrue "Ready" "NvidiaBMMClusterReady")
          from rfl]
      exact (getCondition_set_other
          (setCondition (setCondition (setCondition c.conditions
              (condTrue "VPCReady" "VPCReady")) (condTrue "SubnetsReady" "SubnetsReady"))
            (condTrue "NSGReady" "NSGReady"))
          (condTrue "Ready" "NvidiaBMMClusterReady") "NSGReady" rfl).trans
        (getCondition_set_same (setCondition (setCondition c.conditions
            (condTrue "VPCReady" "VPCReady")) (condTrue "SubnetsReady" "SubnetsReady"))
          (condTrue "NSGReady" "NSGReady"))
    · exact getCondition_set_same _ _

/-- A remote platform accepting every create and resolving every
get with a 200 body. -/
def okEnv : RemoteEnv :=
  { trivialEnv with
    createVpc := fun _ => .response 201 (some ⟨some "550e8400-e29b-41d4-a716-446655440010"⟩)
    createIpblock := fun _ =>
      .response 201 (some ⟨some "550e8400-e29b-41d4-a716-446655440011"⟩)
    createSubnet := fun _ =>
      .response 201 (some ⟨some "550e8400-e29b-41d4-a716-446655440012"⟩)
    createNsg := fun _ => .response 201 (some ⟨some "550e8400-e29b-41d4-a716-446655440013"⟩)
    getVpc := fun _ => .response 200 (some ⟨none⟩)
    getIpblock := fun _ => .response 200 (some ⟨none⟩)
    getSubnet := fun _ => .response 200 (some ⟨none⟩)
    getNsg := fun _ => .response 200 (some ⟨none⟩) }

/-- Witness for C3: the sample cluster converges against the
all-accepting remote, ending ready with VPCReady, SubnetsReady and
Ready all true. -/
theorem c3_conditions_witness :
    (reconcileNormal okEnv sampleCluster).error = none
    ∧ (reconcileNormal okEnv sampleCluster).cluster.status.ready = true
    ∧ getCondition (reconcileNormal okEnv sampleCluster).cluster.conditions "VPCReady"
        = some (condTrue "VPCReady" "VPCReady")
    ∧ getCondition (reconcileNormal okEnv sampleCluster).cluster.conditions "SubnetsReady"
        = some (condTrue "SubnetsReady" "SubnetsReady")
    ∧ getCondition (reconcileNormal okEnv sampleCluster).cluster.conditions "Ready"
        = some (condTrue "Ready" "NvidiaBMMClusterReady") :=
  (c3_conditions okEnv sampleCluster "550e8400-e29b-41d4-a716-446655440000"
      rfl rfl).2.2.2.1 _ _ _ _ rfl rfl rfl

/-- A cluster holding only a cached VPC id. -/
def c9Cluster : NvidiaBMMCluster :=
  { sampleCluster with status :=
      { ready := false
        vpcID := "550e8400-e29b-41d4-a716-446655440002"
        networkStatus := { subnetIDs := [], nsgID := "", ipBlockID := "" } } }

/-- A remote whose GetVpc transport-errors while everything else
succeeds. -/
def c9Env : RemoteEnv := { okEnv with getVpc := fun _ => .transportError }

/-- Claim C9 counterexample: a converging pass in which the GetVpc
call verifying the cached VPC id returns a transport error does not
fail — the controller treats it as not-found, recreates the VPC in
the same pass, overwrites the cached id, and the pass ends with no
error, contradicting the claim that any transport error is fatal
for the pass. -/
theorem c9_counterexample :
    c9Env.getVpc "550e8400-e29b-41d4-a716-446655440002" = RemoteOutcome.transportError
    ∧ (reconcileNormal c9Env c9Cluster).trace.head?
        = some (RemoteCall.getVpc "550e8400-e29b-41d4-a716-446655440002")
    ∧ (reconcileNormal c9Env c9Cluster).error = none
    ∧ (reconcileNormal c9Env c9Cluster).cluster.status.vpcID
        = "550e8400-e29b-41d4-a716-446655440010" := by
  refine ⟨rfl, ?_, ?_, ?_⟩ <;> rfl

/-- Claim C9 (amended): a transport error on any create call —
CreateVpc (fresh or after a cleared stale id), CreateIpblock,
CreateSubnet, CreateNetworkSecurityGroup — makes its create step
fail, and a failing VPC, subnets or NSG step is fatal for the pass
and surfaced as the step's false condition; but a transport error
while verifying an existing cached VPC id is treated as not-found:
the cached id is cleared and recreation proceeds in the same
pass. -/
theorem c9_transport_errors :
    (∀ env spec st siteID su, parseUUID siteID = some su →
      env.createVpc (vpcCreateReq spec su) = RemoteOutcome.transportError →
      (vpcCreateStep env spec st siteID).1 = Except.error "failed to create VPC")
    ∧ (∀ env clusterName st siteID su, parseUUID siteID = some su →
      env.createIpblock (ipBlockCreateReq clusterName su) = RemoteOutcome.transportError →
      (ipBlockCreateStep env clusterName st siteID).1
        = Except.error "failed to create IP block")
    ∧ (∀ env sp v ipb st net pl, parseCIDR sp.cidr = Except.ok (net, pl) →
      env.createSubnet (subnetCreateReq sp v ipb pl) = RemoteOutcome.transportError →
      (subnetCreateStep env sp v ipb st).1
        = Except.error ("failed to create subnet " ++ sp.name))
    ∧ (∀ env nsgSpec siteUUID st,
      env.createNsg (nsgCreateReq nsgSpec siteUUID) = RemoteOutcome.transportError →
      (nsgCreateStep env nsgSpec siteUUID st).1 = Except.error "failed to create NSG")
    ∧ (∀ env c siteID e tr, c.finalizers.contains clusterFinalizer = true →
      siteIDof c.spec = Except.ok siteID →
      reconcileVPC env c.spec c.status siteID = (Except.error e, tr) →
      (reconcileNormal env c).error = some e
      ∧ getCondition (reconcileNormal env c).cluster.conditions "VPCReady"
          = some (condFalse "VPCReady" "VPCReconcileFailed" e))
    ∧ (∀ env c siteID st1 tr1 e tr2, c.finalizers.contains clusterFinalizer = true →
      siteIDof c.spec = Except.ok siteID →
      reconcileVPC env c.spec c.status siteID = (Except.ok st1, tr1) →
      reconcileSubnets env c.spec c.name st1 siteID = (Except.error e, tr2) →
      (reconcileNormal env c).error = some e
      ∧ getCondition (reconcileNormal env c).cluster.conditions "SubnetsReady"
          = some (condFalse "SubnetsReady" "SubnetReconcileFailed" e))
    ∧ (∀ env c siteID nsgSpec st1 tr1 st2 tr2 e tr3,
      c.finalizers.contains clusterFinalizer = true →
      siteIDof c.spec = Except.ok siteID →
      c.spec.vpc.networkSecurityGroup = some nsgSpec →
      reconcileVPC env c.spec c.status siteID = (Except.ok st1, tr1) →
      reconcileSubnets env c.spec c.name st1 siteID = (Except.ok st2, tr2) →
      reconcileNSG env nsgSpec st2 siteID = (Except.error e, tr3) →
      (reconcileNormal env c).error = some e
      ∧ getCondition (reconcileNormal env c).cluster.conditions "NSGReady"
          = some (condFalse "NSGReady" "NSGReconcileFailed" e))
    ∧ (∀ env spec st siteID u, st.vpcID ≠ "" → parseUUID st.vpcID = some u →
      env.getVpc u = RemoteOutcome.transportError →
      reconcileVPC env spec st siteID
        = ((vpcCreateStep env spec { st with vpcID := "" } siteID).1,
           RemoteCall.getVpc u ::
             (vpcCreateStep env spec { st with vpcID := "" } siteID).2)) := by
  refine ⟨?_, ?_, ?_, ?_, ?_, ?_, ?_, ?_⟩
  · intro env spec st siteID su hsu hcreate
    unfold vpcCreateStep
    rw [hsu]
    dsimp only
    rw [hcreate]
  · intro env clusterName st siteID su hsu hcreate
    unfold ipBlockCreateStep
    rw [hsu]
    dsimp only
    rw [hcreate]
  · intro env sp v ipb st net pl hcidr hcreate
    unfold subnetCreateStep
    rw [hcidr]
    dsimp only
    rw [hcreate]
  · intro env nsgSpec siteUUID st hcreate
    unfold nsgCreateStep
    dsimp only
    rw [hcreate]
  · intro env c siteID e tr hfin hsite hvpc
    have hP : reconcileNormal env c =
        { cluster := setClusterCondition c (condFalse "VPCReady" "VPCReconcileFailed" e)
          trace := tr, result := { requeue := false, requeueAfterSec := 0 }
          error := some e } := by
      unfold reconcileNormal
      rw [if_neg (by rw [hfin]; simp), hsite]
      dsimp only
      rw [hvpc]
    rw [hP]
    exact ⟨rfl, getCondition_set_same c.conditions _⟩
  · intro env c siteID st1 tr1 e tr2 hfin hsite hvpc hsub
    have hP : reconcileNormal env c =
        { cluster := setClusterCondition
            (setClusterCondition { c with status := st1 } (condTrue "VPCReady" "VPCReady"))
            (condFalse "SubnetsReady" "SubnetReconcileFailed" e)
          trace := tr1 ++ tr2
          result := { requeue := false, requeueAfterSec := 0 }
          error := some e } := by
      unfold reconcileNormal
      rw [if_neg (by rw [hfin]; simp), hsite]
      dsimp only
      rw [hvpc]
      dsimp only [setClusterCondition]
      rw [hsub]
    rw [hP]
    exact ⟨rfl, getCondition_set_same _ _⟩
  · intro env c siteID nsgSpec st1 tr1 st2 tr2 e tr3 hfin hsite hnsgSpec hvpc hsub hnsg
    have hP : reconcileNormal env c =
        { cluster := setClusterCondition
            (setClusterCondition
              (setClusterCondition { c with status := st2 } (condTrue "VPCReady" "VPCReady"))
              (condTrue "SubnetsReady" "SubnetsReady"))
            (condFalse "NSGReady" "NSGReconcileFailed" e)
          trace := tr1 ++ tr2 ++ tr3
          result := { requeue := false, requeueAfterSec := 0 }
          error := some e } := by
      unfold reconcileNormal
      rw [if_neg (by rw [hfin]; simp), hsite]
      dsimp only
      rw [hvpc]
      dsimp only [setClusterCondition]
      rw [hsub]
      dsimp only
      rw [hnsgSpec]
      dsimp only
      rw [hnsg]
    rw [hP]
    exact ⟨rfl, getCondition_set_same _ _⟩
  · intro env spec st siteID u hne hu hget
    unfold reconcileVPC
    rw [if_pos hne, hu]
    dsimp only
    rw [hget]

/-- Witness for the amended C9: against an all-transport-error
remote the sample cluster's VPC create step fails and the pass ends
with the error and the VPCReady condition false; with a cached id
the verification transport error leads into the create step of the
same pass. -/
theorem c9_transport_errors_witness :
    (vpcCreateStep trivialEnv sampleClusterSpec sampleCluster.status
        "550e8400-e29b-41d4-a716-446655440000").1
      = Except.error "failed to create VPC"
    ∧ (reconcileNormal trivialEnv sampleCluster).error = some "failed to create VPC"
    ∧ getCondition (reconcileNormal trivialEnv sampleCluster).cluster.conditions "VPCReady"
        = some (condFalse "VPCReady" "VPCReconcileFailed" "failed to create VPC")
    ∧ reconcileVPC c9Env c9Cluster.spec c9Cluster.status
          "550e8400-e29b-41d4-a716-446655440000"
        = ((vpcCreateStep c9Env c9Cluster.spec { c9Cluster.status with vpcID := "" }
              "550e8400-e29b-41d4-a716-446655440000").1,
           RemoteCall.getVpc "550e8400-e29b-41d4-a716-446655440002" ::
             (vpcCreateStep c9Env c9Cluster.spec { c9Cluster.status with vpcID := "" }
               "550e8400-e29b-41d4-a716-446655440000").2) := by
  have h1 := c9_transport_errors.1 trivialEnv sampleClusterSpec sampleCluster.status
      "550e8400-e29b-41d4-a716-446655440000" "550e8400-e29b-41d4-a716-446655440000" rfl rfl
  have h5 := c9_transport_errors.2.2.2.2.1 trivialEnv sampleCluster
      "550e8400-e29b-41d4-a716-446655440000" "failed to create VPC"
      [RemoteCall.createVpc
        (vpcCreateReq sampleClusterSpec "550e8400-e29b-41d4-a716-446655440000")]
      rfl rfl rfl
  have h8 := c9_transport_errors.2.2.2.2.2.2.2 c9Env c9Cluster.spec c9Cluster.status
      "550e8400-e29b-41d4-a716-446655440000" "550e8400-e29b-41d4-a716-446655440002"
      (by simp [c9Cluster, sampleCluster]) rfl rfl
  exact ⟨h1, h5.1, h5.2, h8⟩

theorem pair_find?_append_single_of_none {p : String × String → Bool}
    (l : List (String × String)) (q : String × String)
    (hnone : l.find? p = none) (hp : p q = true) : (l ++ [q]).find? p = some q := by
  induction l with
  | nil => simp only [List.nil_append, List.find?, hp]
  | cons a l2 ih =>
    cases hpa : p a with
    | true =>
      simp only [List.find?, hpa] at hnone
      exact absurd hnone (by simp)
    | false =>
      simp only [List.find?, hpa] at hnone
      simp only [List.cons_append, List.find?, hpa]
      exact ih hnone

theorem assocGet_set (m : List (String × String)) (k v : String) :
    assocGet (assocSet m k v) k = some v := by
  unfold assocGet assocSet
  by_cases h : m.any (fun p => p.1 == k) = true
  · rw [if_pos h]
    induction m with
    | nil => simp at h
    | cons q rest ih =>
      by_cases hq : (q.1 == k) = true
      · simp only [List.map_cons, if_pos hq, List.find?, beq_self_eq_true]
        rfl
      · rw [List.any_cons] at h
        simp only [hq, Bool.false_or] at h
        simp only [List.map_cons, if_neg hq, List.find?]
        rw [show (q.1 == k) = false from by simpa using hq]
        exact ih h
  · rw [if_neg h]
    have hnone : m.find? (fun p => p.1 == k) = none := by
      rw [List.find?_eq_none]
      intro x hx hpx
      rw [List.any_eq_true] at h
      exact h ⟨x, hx, hpx⟩
    rw [pair_find?_append_single_of_none m (k, v) hnone (by simp)]
    rfl

/-- Claim C8: a cached id that no longer resolves remotely (the Get
answers a non-200 status or no body) is stale cache, not an error:
in the same pass the id is cleared, the replacement resource is
created, and the cached id is overwritten with the newly assigned
one, for each of the VPC, IP-block, subnet and NSG steps, with no
error surfaced for the not-found itself. -/
theorem c8_stale_cache (env : RemoteEnv) :
    (∀ (spec : NvidiaBMMClusterSpec) (st : ClusterStatus) (siteID su u j : String)
        (s : Nat) (b : Option IdBody),
      st.vpcID ≠ "" → parseUUID st.vpcID = some u →
      env.getVpc u = RemoteOutcome.response s b → (s == 200 && b.isSome) = false →
      parseUUID siteID = some su →
      env.createVpc (vpcCreateReq spec su) = RemoteOutcome.response 201 (some ⟨some j⟩) →
      reconcileVPC env spec st siteID
        = (Except.ok { st with vpcID := j },
           [RemoteCall.getVpc u, RemoteCall.createVpc (vpcCreateReq spec su)]))
    ∧ (∀ (clusterName : String) (st : ClusterStatus) (siteID su j : String)
        (s : Nat) (b : Option IdBody),
      st.networkStatus.ipBlockID ≠ "" →
      parseUUID st.networkStatus.ipBlockID = some st.networkStatus.ipBlockID →
      env.getIpblock st.networkStatus.ipBlockID = RemoteOutcome.response s b →
      (s == 200 && b.isSome) = false →
      parseUUID siteID = some su →
      env.createIpblock (ipBlockCreateReq clusterName su)
        = RemoteOutcome.response 201 (some ⟨some j⟩) →
      ensureIPBlock env clusterName st siteID
        = (Except.ok (j, { st with networkStatus := { st.networkStatus with ipBlockID := j } }),
           [RemoteCall.getIpblock st.networkStatus.ipBlockID,
            RemoteCall.createIpblock (ipBlockCreateReq clusterName su)]))
    ∧ (∀ (sp : SubnetSpec) (rest : List SubnetSpec) (v ipb : String) (st : ClusterStatus)
        (old u net : String) (pl : Nat) (j : String) (s : Nat) (b : Option IdBody),
      assocGet st.networkStatus.subnetIDs sp.name = some old →
      parseUUID old = some u →
      env.getSubnet u = RemoteOutcome.response s b → (s == 200 && b.isSome) = false →
      parseCIDR sp.cidr = Except.ok (net, pl) →
      env.createSubnet (subnetCreateReq sp v ipb pl)
        = RemoteOutcome.response 201 (some ⟨some j⟩) →
      subnetsLoop env v ipb (sp :: rest) st
        = ((subnetsLoop env v ipb rest (setSubnetID (delSubnetID st sp.name) sp.name j)).1,
           RemoteCall.getSubnet u :: RemoteCall.createSubnet (subnetCreateReq sp v ipb pl) ::
             (subnetsLoop env v ipb rest (setSubnetID (delSubnetID st sp.name) sp.name j)).2)
      ∧ assocGet (setSubnetID (delSubnetID st sp.name) sp.name j).networkStatus.subnetIDs
          sp.name = some j)
    ∧ (∀ (nsgSpec : NSGSpec) (st : ClusterStatus) (siteID su j : String)
        (s : Nat) (b : Option IdBody),
      st.networkStatus.nsgID ≠ "" →
      env.getNsg st.networkStatus.nsgID = RemoteOutcome.response s b →
      (s == 200 && b.isSome) = false →
      parseUUID siteID = some su →
      env.createNsg (nsgCreateReq nsgSpec su) = RemoteOutcome.response 201 (some ⟨some j⟩) →
      reconcileNSG env nsgSpec st siteID
        = (Except.ok { st with networkStatus := { st.networkStatus with nsgID := j } },
           [RemoteCall.getNsg st.networkStatus.nsgID,
            RemoteCall.createNsg (nsgCreateReq nsgSpec su)])) := by
  refine ⟨?_, ?_, ?_, ?_⟩
  · intro spec st siteID su u j s b hne hu hget hfail hsu hcreate
    have hcs : vpcCreateStep env spec { st with vpcID := "" } siteID
        = (Except.ok { st with vpcID := j },
           [RemoteCall.createVpc (vpcCreateReq spec su)]) := by
      unfold vpcCreateStep
      rw [hsu]
      dsimp only
      rw [hcreate]
      rfl
    unfold reconcileVPC
    rw [if_pos hne, hu]
    dsimp only
    rw [hget]
    dsimp only
    rw [if_neg (by simp [hfail]), hcs]
  · intro clusterName st siteID su j s b hne hpu hget hfail hsu hcreate
    have hcs : ipBlockCreateStep env clusterName st siteID
        = (Except.ok (j, { st with networkStatus := { st.networkStatus with ipBlockID := j } }),
           [RemoteCall.createIpblock (ipBlockCreateReq clusterName su)]) := by
      unfold ipBlockCreateStep
      rw [hsu]
      dsimp only
      rw [hcreate]
      rfl
    unfold ensureIPBlock
    rw [if_pos hne, hpu]
    dsimp only
    rw [hget]
    dsimp only
    rw [if_neg (by simp [hfail]), hcs]
  · intro sp rest v ipb st old u net pl j s b hg hp hget hfail hcidr hcreate
    have hcs : subnetCreateStep env sp v ipb (delSubnetID st sp.name)
        = (Except.ok (setSubnetID (delSubnetID st sp.name) sp.name j),
           [RemoteCall.createSubnet (subnetCreateReq sp v ipb pl)]) := by
      unfold subnetCreateStep
      rw [hcidr]
      dsimp only
      rw [hcreate]
      rfl
    constructor
    · rw [subnetsLoop]
      rw [hg]
      dsimp only
      rw [hp]
      dsimp only
      rw [hget]
      dsimp only
      rw [if_neg (by simp [hfail]), hcs]
      rfl
    · exact assocGet_set _ sp.name j
  · intro nsgSpec st siteID su j s b hne hget hfail hsu hcreate
    have hcs : nsgCreateStep env nsgSpec su
          { st with networkStatus := { st.networkStatus with nsgID := "" } }
        = (Except.ok { st with networkStatus := { st.networkStatus with nsgID := j } },
           [RemoteCall.createNsg (nsgCreateReq nsgSpec su)]) := by
      unfold nsgCreateStep
      dsimp only
      rw [hcreate]
      rfl
    unfold reconcileNSG
    rw [hsu]
    dsimp only
    rw [if_pos hne, hget]
    dsimp only
    rw [if_neg (by simp [hfail]), hcs]

/-- A remote whose gets answer 404 with no body while creates
succeed. -/
def staleEnv : RemoteEnv :=
  { okEnv with
    getVpc := fun _ => .response 404 none
    getIpblock := fun _ => .response 404 none
    getSubnet := fun _ => .response 404 none
    getNsg := fun _ => .response 404 none }

/-- Witness for C8: the VPC case at concrete inputs — the stale
cached id is replaced by the newly created one in one pass. -/
theorem c8_stale_cache_witness :
    reconcileVPC staleEnv sampleClusterSpec c9Cluster.status
        "550e8400-e29b-41d4-a716-446655440000"
      = (Except.ok { c9Cluster.status with vpcID := "550e8400-e29b-41d4-a716-446655440010" },
         [RemoteCall.getVpc "550e8400-e29b-41d4-a716-446655440002",
          RemoteCall.createVpc (vpcCreateReq sampleClusterSpec
            "550e8400-e29b-41d4-a716-446655440000")]) :=
  (c8_stale_cache staleEnv).1 sampleClusterSpec c9Cluster.status
    "550e8400-e29b-41d4-a716-446655440000" "550e8400-e29b-41d4-a716-446655440000"
    "550e8400-e29b-41d4-a716-446655440002" "550e8400-e29b-41d4-a716-446655440010"
    404 none (by simp [c9Cluster]) rfl rfl rfl rfl rfl

theorem reconcileVPC_hit (env : RemoteEnv) (spec : NvidiaBMMClusterSpec)
    (st : ClusterStatus) (siteID u : String) (bv : IdBody)
    (hv : st.vpcID ≠ "") (hu : parseUUID st.vpcID = some u)
    (hget : env.getVpc u = RemoteOutcome.response 200 (some bv)) :
    reconcileVPC env spec st siteID = (Except.ok st, [RemoteCall.getVpc u]) := by
  unfold reconcileVPC
  rw [if_pos hv, hu]
  dsimp only
  rw [hget]
  dsimp only
  rw [if_pos (by simp)]

theorem ensureIPBlock_hit (env : RemoteEnv) (clusterName : String)
    (st : ClusterStatus) (siteID u : String) (bb : IdBody)
    (hib : st.networkStatus.ipBlockID ≠ "")
    (hu : parseUUID st.networkStatus.ipBlockID = some u)
    (hget : env.getIpblock st.networkStatus.ipBlockID = RemoteOutcome.response 200 (some bb)) :
    ensureIPBlock env clusterName st siteID
      = (Except.ok (u, st), [RemoteCall.getIpblock st.networkStatus.ipBlockID]) := by
  unfold ensureIPBlock
  rw [if_pos hib, hu]
  dsimp only
  rw [hget]
  dsimp only
  rw [if_pos (by simp)]

theorem reconcileNSG_hit (env : RemoteEnv) (nsgSpec : NSGSpec)
    (st : ClusterStatus) (siteID su : String) (bn : IdBody)
    (hsu : parseUUID siteID = some su)
    (hn : st.networkStatus.nsgID ≠ "")
    (hget : env.getNsg st.networkStatus.nsgID = RemoteOutcome.response 200 (some bn)) :
    reconcileNSG env nsgSpec st siteID
      = (Except.ok st, [RemoteCall.getNsg st.networkStatus.nsgID]) := by
  unfold reconcileNSG
  rw [hsu]
  dsimp only
  rw [if_pos hn, hget]
  dsimp only
  rw [if_pos (by simp)]

theorem subnetsLoop_hit (env : RemoteEnv) (v ipb : String) (subs : List SubnetSpec) :
    ∀ st : ClusterStatus,
    (∀ sp ∈ subs, ∃ id u b, assocGet st.networkStatus.subnetIDs sp.name = some id
      ∧ parseUUID id = some u ∧ env.getSubnet u = RemoteOutcome.response 200 (some b)) →
    ∃ tr, subnetsLoop env v ipb subs st = (Except.ok st, tr)
      ∧ ∀ x ∈ tr, x.isCreate = false := by
  induction subs with
  | nil =>
    intro st _
    exact ⟨[], rfl, by simp⟩
  | cons sp rest ih =>
    intro st hall
    obtain ⟨id, u, b, hid, hpu, hget⟩ := hall sp (by simp)
    obtain ⟨tr2, hl2, hall2⟩ := ih st (fun q hq => hall q (by simp [hq]))
    refine ⟨RemoteCall.getSubnet u :: tr2, ?_, ?_⟩
    · rw [subnetsLoop, hid]
      dsimp only
      rw [hpu]
      dsimp only
      rw [hget]
      dsimp only
      rw [if_pos (by simp), hl2]
    · intro x hx
      rw [List.mem_cons] at hx
      rcases hx with hx | hx
      · rw [hx]; rfl
      · exact hall2 x hx

/-- Claim C4: once converged — finalizer attached and the cached
VPC, IP-block, every declared subnet and (when specified) NSG id
all resolving remotely with a 200 body — a cluster reconcile pass
issues zero create calls and leaves every cached id (VPC id and the
whole network status) unchanged, ending without error. -/
theorem c4_idempotent (env : RemoteEnv) (c : NvidiaBMMCluster) (siteID su : String)
    (hfin : c.finalizers.contains clusterFinalizer = true)
    (hsite : siteIDof c.spec = Except.ok siteID)
    (hsu : parseUUID siteID = some su)
    (hv : c.status.vpcID ≠ "")
    (hvu : ∃ u bv, parseUUID c.status.vpcID = some u
        ∧ env.getVpc u = RemoteOutcome.response 200 (some bv))
    (hib : c.status.networkStatus.ipBlockID ≠ "")
    (hibu : ∃ u bb, parseUUID c.status.networkStatus.ipBlockID = some u
        ∧ env.getIpblock c.status.networkStatus.ipBlockID
            = RemoteOutcome.response 200 (some bb))
    (hsubs : ∀ sp ∈ c.spec.subnets, ∃ id u b,
        assocGet c.status.networkStatus.subnetIDs sp.name = some id
        ∧ parseUUID id = some u ∧ env.getSubnet u = RemoteOutcome.response 200 (some b))
    (hnsg : ∀ nsgSpec, c.spec.vpc.networkSecurityGroup = some nsgSpec →
        c.status.networkStatus.nsgID ≠ ""
        ∧ ∃ b, env.getNsg c.status.networkStatus.nsgID = RemoteOutcome.response 200 (some b)) :
    (reconcileNormal env c).error = none
    ∧ (reconcileNormal env c).cluster.status.vpcID = c.status.vpcID
    ∧ (reconcileNormal env c).cluster.status.networkStatus = c.status.networkStatus
    ∧ ∀ x ∈ (reconcileNormal env c).trace, x.isCreate = false := by
  obtain ⟨uv, bv, hvu1, hvu2⟩ := hvu
  obtain ⟨ub, bb, hibu1, hibu2⟩ := hibu
  have hvpc := reconcileVPC_hit env c.spec c.status siteID uv bv hv hvu1 hvu2
  have hipb := ensureIPBlock_hit env c.name c.status siteID ub bb hib hibu1 hibu2
  obtain ⟨trl, hloop, hloopall⟩ := subnetsLoop_hit env uv ub c.spec.subnets c.status hsubs
  have hsubnets : reconcileSubnets env c.spec c.name c.status siteID
      = (Except.ok c.status,
         RemoteCall.getIpblock c.status.networkStatus.ipBlockID :: trl) := by
    unfold reconcileSubnets
    rw [if_neg hv, hvu1]
    dsimp only
    rw [hipb]
    dsimp only
    rw [hloop]
    rfl
  cases hng : c.spec.vpc.networkSecurityGroup with
  | none =>
    have hP : reconcileNormal env c =
        { cluster := setClusterCondition
            { (setClusterCondition
                (setClusterCondition { c with status := c.status }
                  (condTrue "VPCReady" "VPCReady"))
                (condTrue "SubnetsReady" "SubnetsReady")) with
              status := { c.status with ready := true } }
            (condTrue "Ready" "NvidiaBMMClusterReady")
          trace := [RemoteCall.getVpc uv]
            ++ (RemoteCall.getIpblock c.status.networkStatus.ipBlockID :: trl)
          result := { requeue := false, requeueAfterSec := 0 }
          error := none } := by
      unfold reconcileNormal
      rw [if_neg (by rw [hfin]; simp), hsite]
      dsimp only
      rw [hvpc]
      dsimp only [setClusterCondition]
      rw [hsubnets]
      dsimp only
      rw [hng]
    rw [hP]
    refine ⟨rfl, rfl, rfl, ?_⟩
    intro x hx
    rw [List.mem_append] at hx
    rcases hx with hx | hx
    · rw [List.mem_singleton] at hx
      rw [hx]; rfl
    · rw [List.mem_cons] at hx
      rcases hx with hx | hx
      · rw [hx]; rfl
      · exact hloopall x hx
  | some nsgSpec =>
    obtain ⟨hn, bn, hngget⟩ := hnsg nsgSpec hng
    have hnsgEq := reconcileNSG_hit env nsgSpec c.status siteID su bn hsu hn hngget
    have hP : reconcileNormal env c =
        { cluster := setClusterCondition
            { (setClusterCondition
                (setClusterCondition
                  (setClusterCondition { c with status := c.status }
                    (condTrue "VPCReady" "VPCReady"))
                  (condTrue "SubnetsReady" "SubnetsReady"))
                (condTrue "NSGReady" "NSGReady")) with
              status := { c.status with ready := true } }
            (condTrue "Ready" "NvidiaBMMClusterReady")
          trace := [RemoteCall.getVpc uv]
            ++ (RemoteCall.getIpblock c.status.networkStatus.ipBlockID :: trl)
            ++ [RemoteCall.getNsg c.status.networkStatus.nsgID]
          result := { requeue := false, requeueAfterSec := 0 }
          error := none } := by
      unfold reconcileNormal
      rw [if_neg (by rw [hfin]; simp), hsite]
      dsimp only
      rw [hvpc]
      dsimp only [setClusterCondition]
      rw [hsubnets]
      dsimp only
      rw [hng]
      dsimp only
      rw [hnsgEq]
    rw [hP]
    refine ⟨rfl, rfl, rfl, ?_⟩
    intro x hx
    rw [List.mem_append] at hx
    rcases hx with hx | hx
    · rw [List.mem_append] at hx
      rcases hx with hx | hx
      · rw [List.mem_singleton] at hx
        rw [hx]; rfl
      · rw [List.mem_cons] at hx
        rcases hx with hx | hx
        · rw [hx]; rfl
        · exact hloopall x hx
    · rw [List.mem_singleton] at hx
      rw [hx]; rfl

/-- A sample converged cluster: every id cached. -/
def convergedCluster : NvidiaBMMCluster :=
  { sampleCluster with status :=
      { ready := true
        vpcID := "550e8400-e29b-41d4-a716-446655440002"
        networkStatus :=
          { subnetIDs := [("control-plane", "550e8400-e29b-41d4-a716-446655440003")]
            nsgID := "", ipBlockID := "550e8400-e29b-41d4-a716-446655440005" } } }

/-- Witness for C4: the converged sample cluster against a remote
resolving every get issues no create call and keeps its ids. -/
theorem c4_idempotent_witness :
    (reconcileNormal okEnv convergedCluster).error = none
    ∧ (reconcileNormal okEnv convergedCluster).cluster.status.vpcID
        = convergedCluster.status.vpcID
    ∧ (reconcileNormal okEnv convergedCluster).cluster.status.networkStatus
        = convergedCluster.status.networkStatus
    ∧ ∀ x ∈ (reconcileNormal okEnv convergedCluster).trace, x.isCreate = false :=
  c4_idempotent okEnv convergedCluster "550e8400-e29b-41d4-a716-446655440000"
    "550e8400-e29b-41d4-a716-446655440000" rfl rfl rfl (by simp [convergedCluster])
    ⟨"550e8400-e29b-41d4-a716-446655440002", ⟨none⟩, rfl, rfl⟩
    (by simp [convergedCluster])
    ⟨"550e8400-e29b-41d4-a716-446655440005", ⟨none⟩, rfl, rfl⟩
    (by
      intro sp hsp
      rw [show convergedCluster.spec.subnets
          = [{ name := "control-plane", cidr := "10.0.1.0/24", role := "control-plane" }]
        from rfl] at hsp
      rw [List.mem_singleton] at hsp
      subst hsp
      exact ⟨"550e8400-e29b-41d4-a716-446655440003",
        "550e8400-e29b-41d4-a716-446655440003", ⟨none⟩, rfl, rfl, rfl⟩)
    (by
      intro ns h
      exact absurd h (by simp [convergedCluster, sampleCluster, sampleClusterSpec]))

theorem ipBlockCreateStep_trace (env : RemoteEnv) (clusterName : String)
    (st : ClusterStatus) (siteID : String) :
    ∀ x ∈ (ipBlockCreateStep env clusterName st siteID).2,
      ∃ r, x = RemoteCall.createIpblock r := by
  intro x hx
  unfold ipBlockCreateStep at hx
  repeat' (first | (split at hx) | (dsimp only at hx))
  all_goals simp at hx
  all_goals exact ⟨_, hx⟩

theorem ensureIPBlock_trace (env : RemoteEnv) (clusterName : String)
    (st : ClusterStatus) (siteID : String) :
    ∀ x ∈ (ensureIPBlock env clusterName st siteID).2,
      (∃ i, x = RemoteCall.getIpblock i) ∨ (∃ r, x = RemoteCall.createIpblock r) := by
  intro x hx
  unfold ensureIPBlock at hx
  repeat' (first | (split at hx) | (dsimp only at hx))
  all_goals try (
    right
    exact ipBlockCreateStep_trace env clusterName st siteID x hx)
  all_goals try (
    rw [List.mem_singleton] at hx
    exact Or.inl ⟨_, hx⟩)
  all_goals (
    rename_i r tr2 heq
    rw [List.mem_cons] at hx
    rcases hx with hx | hx
    · exact Or.inl ⟨_, hx⟩
    · right
      have := ipBlockCreateStep_trace env clusterName st siteID x
      rw [heq] at this
      exact this hx)

theorem subnetCreateStep_trace (env : RemoteEnv) (sp : SubnetSpec) (v ipb : String)
    (st : ClusterStatus) :
    (subnetCreateStep env sp v ipb st).2 = []
    ∨ ∃ net pl, parseCIDR sp.cidr = Except.ok (net, pl)
        ∧ (subnetCreateStep env sp v ipb st).2
            = [RemoteCall.createSubnet (subnetCreateReq sp v ipb pl)] := by
  rcases hc : parseCIDR sp.cidr with e | p
  · left
    unfold subnetCreateStep
    rw [hc]
  · obtain ⟨net, pl⟩ := p
    right
    refine ⟨net, pl, rfl, ?_⟩
    unfold subnetCreateStep
    rw [hc]
    dsimp only
    cases env.createSubnet (subnetCreateReq sp v ipb pl) with
    | transportError => rfl
    | response s b =>
      repeat' first
        | rfl
        | split

theorem subnetsLoop_trace (env : RemoteEnv) (v ipb : String) (subs : List SubnetSpec) :
    ∀ st req, RemoteCall.createSubnet req ∈ (subnetsLoop env v ipb subs st).2 →
      ∃ sp ∈ subs, ∃ net, parseCIDR sp.cidr = Except.ok (net, req.prefixLength)
        ∧ req.name = sp.name := by
  induction subs with
  | nil =>
    intro st req h
    rw [subnetsLoop] at h
    simp at h
  | cons sp rest ih =>
    intro st req h
    have fromCreate : ∀ st1 : ClusterStatus,
        RemoteCall.createSubnet req ∈ (subnetCreateStep env sp v ipb st1).2 →
        ∃ sp2 ∈ sp :: rest, ∃ net, parseCIDR sp2.cidr = Except.ok (net, req.prefixLength)
          ∧ req.name = sp2.name := by
      intro st1 hx
      rcases subnetCreateStep_trace env sp v ipb st1 with htr | ⟨net, pl, hc, htr⟩
      · rw [htr] at hx
        simp at hx
      · rw [htr] at hx
        rw [List.mem_singleton] at hx
        injection hx with hx
        subst hx
        exact ⟨sp, by simp, net, hc, rfl⟩
    have fromRest : ∀ (stX : ClusterStatus),
        RemoteCall.createSubnet req ∈ (subnetsLoop env v ipb rest stX).2 →
        ∃ sp2 ∈ sp :: rest, ∃ net, parseCIDR sp2.cidr = Except.ok (net, req.prefixLength)
          ∧ req.name = sp2.name := by
      intro stX hx
      obtain ⟨sp2, hsp2, net, hc, hn⟩ := ih stX req hx
      exact ⟨sp2, by simp [hsp2], net, hc, hn⟩
    have createChain : ∀ st1 : ClusterStatus,
        RemoteCall.createSubnet req ∈
          (match subnetCreateStep env sp v ipb st1 with
            | (.error e, tr) => ((Except.error e : Except String ClusterStatus), tr)
            | (.ok st2, tr) =>
              let p := subnetsLoop env v ipb rest st2
              (p.1, tr ++ p.2)).2 →
        ∃ sp2 ∈ sp :: rest, ∃ net, parseCIDR sp2.cidr = Except.ok (net, req.prefixLength)
          ∧ req.name = sp2.name := by
      intro st1 hx
      cases hcs : subnetCreateStep env sp v ipb st1 with
      | mk rc trc =>
        rw [hcs] at hx
        cases rc with
        | error e =>
          dsimp only at hx
          have := fromCreate st1
          rw [hcs] at this
          exact this hx
        | ok stc =>
          dsimp only at hx
          rw [List.mem_append] at hx
          rcases hx with hx | hx
          · have := fromCreate st1
            rw [hcs] at this
            exact this hx
          · exact fromRest stc hx
    rw [subnetsLoop] at h
    cases hg : assocGet st.networkStatus.subnetIDs sp.name with
    | none =>
      rw [hg] at h
      dsimp only at h
      cases hcs : subnetCreateStep env sp v ipb st with
      | mk rc trc =>
        rw [hcs] at h
        cases rc with
        | error e =>
          dsimp only at h
          have := fromCreate st
          rw [hcs] at this
          exact this h
        | ok stc =>
          dsimp only at h
          rw [List.mem_append] at h
          rcases h with h | h
          · have := fromCreate st
            rw [hcs] at this
            exact this h
          · exact fromRest stc h
    | some existingID =>
      rw [hg] at h
      dsimp only at h
      have createChainGet : ∀ (st1 : ClusterStatus) (su : String),
          RemoteCall.createSubnet req ∈
            (match subnetCreateStep env sp v ipb st1 with
              | (.error e, tr) =>
                ((Except.error e : Except String ClusterStatus),
                 RemoteCall.getSubnet su :: tr)
              | (.ok st2, tr) =>
                ((subnetsLoop env v ipb rest st2).1,
                  RemoteCall.getSubnet su :: (tr ++ (subnetsLoop env v ipb rest st2).2))).2 →
          ∃ sp2 ∈ sp :: rest, ∃ net, parseCIDR sp2.cidr = Except.ok (net, req.prefixLength)
            ∧ req.name = sp2.name := by
        intro st1 su hx
        cases hcs : subnetCreateStep env sp v ipb st1 with
        | mk rc trc =>
          rw [hcs] at hx
          cases rc with
          | error e =>
            dsimp only at hx
            rw [List.mem_cons] at hx
            rcases hx with hx | hx
            · exact absurd hx (by simp)
            · have := fromCreate st1
              rw [hcs] at this
              exact this hx
          | ok stc =>
            dsimp only at hx
            rw [List.mem_cons] at hx
            rcases hx with hx | hx
            · exact absurd hx (by simp)
            · rw [List.mem_append] at hx
              rcases hx with hx | hx
              · have := fromCreate st1
                rw [hcs] at this
                exact this hx
              · exact fromRest stc hx
      cases hp : parseUUID existingID with
      | none =>
        rw [hp] at h
        dsimp only at h
        exact createChain (delSubnetID st sp.name) h
      | some su =>
        rw [hp] at h
        dsimp only at h
        cases hgo : env.getSubnet su with
        | transportError =>
          rw [hgo] at h
          dsimp only at h
          exact createChainGet (delSubnetID st sp.name) su h
        | response s b =>
          rw [hgo] at h
          dsimp only at h
          by_cases hsb : (s == 200 && b.isSome) = true
          · rw [if_pos hsb] at h
            cases hl : subnetsLoop env v ipb rest st with
            | mk r tr2 =>
              rw [hl] at h
              dsimp only at h
              rw [List.mem_cons] at h
              rcases h with h | h
              · exact absurd h (by simp)
              · have := fromRest st
                rw [hl] at this
                exact this h
          · rw [if_neg hsb] at h
            exact createChainGet (delSubnetID st sp.name) su h

/-- Claim C5: parseCIDR maps "10.0.1.0/24" to prefix length 24 and
normalizes "10.0.1.5/24" (host bits set) to network "10.0.1.0" with
the same prefix length 24; every CreateSubnet request issued by
reconcileSubnets carries only the prefix length derived by parseCIDR
from a declared subnet's CIDR (and that subnet's name) — no
host-bit-carrying address field exists in the request; and parseCIDR
succeeds only on well-formed strings (ip "/" mask with four valid
octets and a mask value at most 32), so every malformed CIDR string
yields an error. -/
theorem c5_parse_cidr :
    parseCIDR "10.0.1.0/24" = Except.ok ("10.0.1.0", 24)
    ∧ parseCIDR "10.0.1.5/24" = Except.ok ("10.0.1.0", 24)
    ∧ (∀ env spec clusterName st siteID req,
        RemoteCall.createSubnet req ∈ (reconcileSubnets env spec clusterName st siteID).2 →
        ∃ sp ∈ spec.subnets, ∃ net,
          parseCIDR sp.cidr = Except.ok (net, req.prefixLength) ∧ req.name = sp.name)
    ∧ (∀ s net n, parseCIDR s = Except.ok (net, n) →
        ∃ ip mask, splitChar '/' s.toList = [ip, mask]
          ∧ ∃ a b c d, splitChar '.' ip = [a, b, c, d]
            ∧ octetOk a = true ∧ octetOk b = true ∧ octetOk c = true ∧ octetOk d = true
            ∧ maskFieldOk mask = true ∧ n = decimalVal mask ∧ n ≤ 32
            ∧ net = quadString (maskOctet (decimalVal a) n 0) (maskOctet (decimalVal b) n 1)
                (maskOctet (decimalVal c) n 2) (maskOctet (decimalVal d) n 3)) := by
  refine ⟨rfl, rfl, ?_, ?_⟩
  · intro env spec clusterName st siteID req h
    unfold reconcileSubnets at h
    by_cases hv : st.vpcID = ""
    · rw [if_pos hv] at h
      simp at h
    · rw [if_neg hv] at h
      cases hu : parseUUID st.vpcID with
      | none =>
        rw [hu] at h
        simp at h
      | some vpcUUID =>
        rw [hu] at h
        dsimp only at h
        cases hib : ensureIPBlock env clusterName st siteID with
        | mk r tr =>
          rw [hib] at h
          cases r with
          | error e =>
            dsimp only at h
            have ht := ensureIPBlock_trace env clusterName st siteID
              (RemoteCall.createSubnet req)
            rw [hib] at ht
            rcases ht h with ⟨i, hx⟩ | ⟨r2, hx⟩ <;> simp at hx
          | ok p =>
            obtain ⟨ipBlockID, st1⟩ := p
            dsimp only at h
            cases hl : subnetsLoop env vpcUUID ipBlockID spec.subnets st1 with
            | mk r2 tr2 =>
              rw [hl] at h
              dsimp only at h
              rw [List.mem_append] at h
              rcases h with h | h
              · have ht := ensureIPBlock_trace env clusterName st siteID
                  (RemoteCall.createSubnet req)
                rw [hib] at ht
                rcases ht h with ⟨i, hx⟩ | ⟨r3, hx⟩ <;> simp at hx
              · have := subnetsLoop_trace env vpcUUID ipBlockID spec.subnets st1 req
                rw [hl] at this
                exact this h
  · intro s net n h
    unfold parseCIDR at h
    cases h1 : splitChar '/' s.toList with
    | nil => rw [h1] at h; exact absurd h (by simp)
    | cons ip rest1 =>
      cases rest1 with
      | nil => rw [h1] at h; exact absurd h (by simp)
      | cons mask rest2 =>
        cases rest2 with
        | cons x xs => rw [h1] at h; exact absurd h (by simp)
        | nil =>
          rw [h1] at h
          dsimp only at h
          cases h2 : splitChar '.' ip with
          | nil => rw [h2] at h; exact absurd h (by simp)
          | cons a restA =>
            cases restA with
            | nil => rw [h2] at h; exact absurd h (by simp)
            | cons b restB =>
              cases restB with
              | nil => rw [h2] at h; exact absurd h (by simp)
              | cons c restC =>
                cases restC with
                | nil => rw [h2] at h; exact absurd h (by simp)
                | cons d restD =>
                  cases restD with
                  | cons y ys => rw [h2] at h; exact absurd h (by simp)
                  | nil =>
                    rw [h2] at h
                    dsimp only at h
                    by_cases hok :
                        (octetOk a && octetOk b && octetOk c && octetOk d
                          && maskFieldOk mask) = true
                    · rw [if_pos hok] at h
                      rw [Except.ok.injEq, Prod.mk.injEq] at h
                      obtain ⟨hnet, hn⟩ := h
                      simp only [Bool.and_eq_true] at hok
                      obtain ⟨⟨⟨⟨hA, hB⟩, hC⟩, hD⟩, hM⟩ := hok
                      have hle : decimalVal mask ≤ 32 := by
                        have := hM
                        unfold maskFieldOk at this
                        simp only [Bool.and_eq_true, decide_eq_true_eq] at this
                        exact this.2
                      exact ⟨ip, mask, rfl, a, b, c, d, h2, hA, hB, hC, hD, hM,
                        hn.symm, hn ▸ hle, hn ▸ hnet.symm⟩
                    · rw [if_neg hok] at h
                      exact absurd h (by simp)

/-- A status carrying only a cached (resolvable) VPC id, as input
for a subnet-creating pass. -/
def c5Status : ClusterStatus :=
  { ready := false, vpcID := "550e8400-e29b-41d4-a716-446655440010"
    networkStatus := { subnetIDs := [], nsgID := "", ipBlockID := "" } }

/-- Witness for C5: the CreateSubnet request issued for the sample
spec against the all-accepting remote carries the name and parseCIDR
prefix length of the declared control-plane subnet. -/
theorem c5_parse_cidr_witness :
    ∃ sp ∈ sampleClusterSpec.subnets, ∃ net,
      parseCIDR sp.cidr = Except.ok (net,
        (subnetCreateReq { name := "control-plane", cidr := "10.0.1.0/24"
                           role := "control-plane" }
          "550e8400-e29b-41d4-a716-446655440010"
          "550e8400-e29b-41d4-a716-446655440011" 24).prefixLength)
      ∧ (subnetCreateReq { name := "control-plane", cidr := "10.0.1.0/24"
                           role := "control-plane" }
          "550e8400-e29b-41d4-a716-446655440010"
          "550e8400-e29b-41d4-a716-446655440011" 24).name = sp.name :=
  c5_parse_cidr.2.2.1 okEnv sampleClusterSpec "test-cluster" c5Status
    "550e8400-e29b-41d4-a716-446655440000" _ (by decide)

theorem reconcileInstance_endpoint_preserved (env : RemoteEnv) (w : MachineWorld)
    (ep : APIEndpoint) (hep : w.cluster.spec.controlPlaneEndpoint = some ep)
    (hh : ¬ ep.host = "") :
    (reconcileInstance env w).world.cluster.spec.controlPlaneEndpoint = some ep := by
  unfold reconcileInstance
  repeat' first
    | exact hep
    | split
    | dsimp only
  all_goals (
    rename_i hc
    rw [hep] at hc
    simp at hc
    exact absurd hc.2 hh)

theorem reconcileInstance_adopts (env : RemoteEnv) (w : MachineWorld) (u : String)
    (inst : InstanceBody) (a : MachineAddress) (rest : List MachineAddress)
    (hu : parseUUID w.machine.status.instanceID = some u)
    (hg : env.getInstance u = .response 200 (some inst))
    (hready : inst.status = some "Ready")
    (hcp : isControlPlane w.owner = true)
    (hunset : w.cluster.spec.controlPlaneEndpoint = none
        ∨ (w.cluster.spec.controlPlaneEndpoint.map (·.host)).getD "" = "")
    (haddr : flattenAddresses inst.interfaces = a :: rest) :
    (reconcileInstance env w).world.cluster.spec.controlPlaneEndpoint
        = some { host := a.address, port := 6443 }
      ∧ (reconcileInstance env w).error = none := by
  have hlen : (flattenAddresses inst.interfaces).length > 0 := by
    rw [haddr]; simp
  unfold reconcileInstance
  rw [hu]
  dsimp only
  rw [hg]
  dsimp only
  rw [dif_pos (show (200 : Nat) = 200 ∧ (some inst).isSome = true from ⟨rfl, rfl⟩)]
  dsimp only [Option.get]
  rw [if_pos hready]
  dsimp only
  have howner : isControlPlane
      (if (flattenAddresses inst.interfaces).length > 0 then
        { w.owner with addresses := flattenAddresses inst.interfaces }
      else w.owner) = true := by
    rw [if_pos hlen]; exact hcp
  have hcond := And.intro howner hunset
  rw [if_pos hcond]
  rw [if_pos hlen]
  rw [haddr]
  exact ⟨rfl, rfl⟩

theorem isControlPlane_addr_ite (w : MachineWorld) (C : Prop) (dC : Decidable C)
    (addrs : List MachineAddress) :
    isControlPlane (@ite _ C dC { w.owner with addresses := addrs } w.owner)
      = isControlPlane w.owner := by
  rcases dC with h | h
  · rfl
  · rfl

theorem reconcileInstance_endpoint_written_only_if (env : RemoteEnv) (w : MachineWorld) :
    (reconcileInstance env w).world.cluster.spec.controlPlaneEndpoint
        = w.cluster.spec.controlPlaneEndpoint
    ∨ (isControlPlane w.owner = true
        ∧ (w.cluster.spec.controlPlaneEndpoint = none
           ∨ (w.cluster.spec.controlPlaneEndpoint.map (·.host)).getD "" = "")
        ∧ ∃ u inst a rest, parseUUID w.machine.status.instanceID = some u
            ∧ env.getInstance u = RemoteOutcome.response 200 (some inst)
            ∧ inst.status = some "Ready"
            ∧ flattenAddresses inst.interfaces = a :: rest
            ∧ (reconcileInstance env w).world.cluster.spec.controlPlaneEndpoint
                = some { host := a.address, port := 6443 }) := by
  cases hu : parseUUID w.machine.status.instanceID with
  | none =>
    left
    unfold reconcileInstance
    rw [hu]
  | some u =>
    cases hg : env.getInstance u with
    | transportError =>
      left
      unfold reconcileInstance
      rw [hu]
      dsimp only
      rw [hg]
    | response status body =>
      by_cases h2 : status = 200 ∧ body.isSome = true
      · obtain ⟨h200, hsome⟩ := h2
        subst h200
        cases body with
        | none => simp at hsome
        | some inst =>
          by_cases hready : inst.status = some "Ready"
          · by_cases hcp : isControlPlane w.owner = true
            · by_cases hunset : (w.cluster.spec.controlPlaneEndpoint = none
                  ∨ (w.cluster.spec.controlPlaneEndpoint.map (·.host)).getD "" = "")
              · cases hfa : flattenAddresses inst.interfaces with
                | nil =>
                  left
                  unfold reconcileInstance
                  rw [hu]
                  dsimp only
                  rw [hg]
                  dsimp only
                  rw [dif_pos (show (200 : Nat) = 200 ∧ (some inst).isSome = true
                        from ⟨rfl, rfl⟩)]
                  dsimp only [Option.get]
                  rw [if_pos hready]
                  dsimp only
                  rw [hfa]
                  simp
                | cons a rest =>
                  right
                  refine ⟨hcp, hunset, u, inst, a, rest, rfl, hg, hready, hfa, ?_⟩
                  exact (reconcileInstance_adopts env w u inst a rest
                    hu hg hready hcp hunset hfa).1
              · left
                push_neg at hunset
                obtain ⟨hne, hhost⟩ := hunset
                obtain ⟨ep, hep⟩ := Option.ne_none_iff_exists'.mp hne
                have hh : ¬ ep.host = "" := by
                  rw [hep] at hhost
                  simpa using hhost
                rw [reconcileInstance_endpoint_preserved env w ep hep hh, hep]
            · left
              unfold reconcileInstance
              rw [hu]
              dsimp only
              rw [hg]
              dsimp only
              rw [dif_pos (show (200 : Nat) = 200 ∧ (some inst).isSome = true
                    from ⟨rfl, rfl⟩)]
              dsimp only [Option.get]
              rw [if_pos hready]
              dsimp only
              have hneg : ¬ (isControlPlane
                    (if (flattenAddresses inst.interfaces).length > 0 then
                      { w.owner with addresses := flattenAddresses inst.interfaces }
                    else w.owner) = true
                  ∧ (w.cluster.spec.controlPlaneEndpoint = none
                     ∨ (w.cluster.spec.controlPlaneEndpoint.map (·.host)).getD "" = "")) :=
                fun hcc => hcp ((isControlPlane_addr_ite w _ _ _).symm.trans hcc.1)
              rw [if_neg hneg]
          · left
            unfold reconcileInstance
            rw [hu]
            dsimp only
            rw [hg]
            dsimp only
            rw [dif_pos (show (200 : Nat) = 200 ∧ (some inst).isSome = true
                  from ⟨rfl, rfl⟩)]
            dsimp only [Option.get]
            rw [if_neg hready]
      · left
        unfold reconcileInstance
        rw [hu]
        dsimp only
        rw [hg]
        dsimp only
        rw [dif_neg h2]

/-- One step of a sequence of machine passes against a shared
cluster: the remote seen by that pass and the machine objects
reconciled in it. -/
structure SeqStep where
  env : RemoteEnv
  machine : NvidiaBMMMachine
  owner : CapiMachine

/-- Thread the shared cluster object through a sequence of
reconcileInstance passes, one machine after another. -/
def runPasses : NvidiaBMMCluster → List SeqStep → NvidiaBMMCluster
  | c, [] => c
  | c, s :: rest =>
    runPasses (reconcileInstance s.env
      { machine := s.machine, owner := s.owner, cluster := c }).world.cluster rest

theorem runPasses_preserves (steps : List SeqStep) :
    ∀ c ep, c.spec.controlPlaneEndpoint = some ep → ¬ ep.host = "" →
      (runPasses c steps).spec.controlPlaneEndpoint = some ep := by
  induction steps with
  | nil => intro c ep hep _; exact hep
  | cons s rest ih =>
    intro c ep hep hh
    unfold runPasses
    exact ih _ ep (reconcileInstance_endpoint_preserved s.env _ ep hep hh) hh

/-- Claim C7: the control-plane endpoint is adopted exactly once —
the endpoint is written in a pass only if the machine is a
control-plane member, the remote state is exactly Ready with at
least one discovered address, and the endpoint is unset (nil or
empty host), in which case it is set to the first discovered
address with fixed port 6443 (any other pass leaves it unchanged);
a set endpoint with a non-empty host is preserved by every pass, so
over any sequence of control-plane machines reaching Ready the
endpoint keeps the first adopter's first address. -/
theorem c7_endpoint_adopted_once :
    (∀ env w ep, w.cluster.spec.controlPlaneEndpoint = some ep → ¬ ep.host = "" →
      (reconcileInstance env w).world.cluster.spec.controlPlaneEndpoint = some ep)
    ∧ (∀ env w,
        (reconcileInstance env w).world.cluster.spec.controlPlaneEndpoint
            = w.cluster.spec.controlPlaneEndpoint
        ∨ (isControlPlane w.owner = true
            ∧ (w.cluster.spec.controlPlaneEndpoint = none
               ∨ (w.cluster.spec.controlPlaneEndpoint.map (·.host)).getD "" = "")
            ∧ ∃ u inst a rest, parseUUID w.machine.status.instanceID = some u
                ∧ env.getInstance u = RemoteOutcome.response 200 (some inst)
                ∧ inst.status = some "Ready"
                ∧ flattenAddresses inst.interfaces = a :: rest
                ∧ (reconcileInstance env w).world.cluster.spec.controlPlaneEndpoint
                    = some { host := a.address, port := 6443 }))
    ∧ (∀ env w u inst a rest, parseUUID w.machine.status.instanceID = some u →
        env.getInstance u = .response 200 (some inst) →
        inst.status = some "Ready" →
        isControlPlane w.owner = true →
        (w.cluster.spec.controlPlaneEndpoint = none
          ∨ (w.cluster.spec.controlPlaneEndpoint.map (·.host)).getD "" = "") →
        flattenAddresses inst.interfaces = a :: rest →
        (reconcileInstance env w).world.cluster.spec.controlPlaneEndpoint
            = some { host := a.address, port := 6443 }
          ∧ (reconcileInstance env w).error = none)
    ∧ (∀ steps c ep, c.spec.controlPlaneEndpoint = some ep → ¬ ep.host = "" →
        (runPasses c steps).spec.controlPlaneEndpoint = some ep)
    ∧ (∀ s steps c u inst a rest, c.spec.controlPlaneEndpoint = none →
        parseUUID s.machine.status.instanceID = some u →
        s.env.getInstance u = .response 200 (some inst) →
        inst.status = some "Ready" →
        isControlPlane s.owner = true →
        flattenAddresses inst.interfaces = a :: rest →
        ¬ a.address = "" →
        (runPasses c (s :: steps)).spec.controlPlaneEndpoint
          = some { host := a.address, port := 6443 }) := by
  refine ⟨reconcileInstance_endpoint_preserved, reconcileInstance_endpoint_written_only_if,
    ?_, runPasses_preserves, ?_⟩
  · intro env w u inst a rest hu hg hready hcp hunset haddr
    exact reconcileInstance_adopts env w u inst a rest hu hg hready hcp hunset haddr
  · intro s steps c u inst a rest hnone hu hg hready hcp haddr hha
    unfold runPasses
    have had := reconcileInstance_adopts s.env
      { machine := s.machine, owner := s.owner, cluster := c } u inst a rest
      hu hg hready hcp (Or.inl hnone) haddr
    exact runPasses_preserves steps _ { host := a.address, port := 6443 } had.1 hha

/-- Remote instance body for the first control-plane machine:
Ready, one interface with one address. -/
def c7Inst : InstanceBody :=
  { id := some "770e8400-e29b-41d4-a716-446655440020"
    machineId := some "machine-1", status := some "Ready"
    interfaces := some [{ ipAddresses := some ["10.0.1.100"] }] }

/-- Remote instance body for the second control-plane machine, with
a different address. -/
def c7Inst2 : InstanceBody :=
  { id := some "770e8400-e29b-41d4-a716-446655440021"
    machineId := some "machine-2", status := some "Ready"
    interfaces := some [{ ipAddresses := some ["10.0.1.101"] }] }

/-- A control-plane owner Machine. -/
def c7Owner : CapiMachine :=
  { name := "cp-0", labels := [("cluster.x-k8s.io/control-plane", "true")]
    bootstrapDataSecretName := some "cp-0-bootstrap", providerID := "", addresses := [] }

/-- A machine object carrying a cached instance id. -/
def c7Machine (iid : String) : NvidiaBMMMachine :=
  { name := "cp-0", finalizers := [machineFinalizer], deletionTimestampSet := false
    spec :=
      { providerID := none
        instanceType := { id := "", machineID := "", allowUnhealthyMachine := false }
        network := { subnetName := "control-plane", additionalInterfaces := [] }
        sshKeyGroups := [], labels := [] }
    status :=
      { ready := false, instanceID := iid, machineID := "", instanceState := ""
        addresses := [], conditions := [] } }

/-- First pass: the first control-plane machine polls Ready. -/
def c7Step : SeqStep :=
  { env := { trivialEnv with getInstance := fun _ => .response 200 (some c7Inst) }
    machine := c7Machine "770e8400-e29b-41d4-a716-446655440020"
    owner := c7Owner }

/-- Second pass: another control-plane machine polls Ready with a
different address. -/
def c7Step2 : SeqStep :=
  { env := { trivialEnv with getInstance := fun _ => .response 200 (some c7Inst2) }
    machine := c7Machine "770e8400-e29b-41d4-a716-446655440021"
    owner := c7Owner }

/-- Witness for C7: two control-plane machines reach Ready in
sequence against an initially unset endpoint; the endpoint ends at
the first machine's first address with port 6443, not overwritten
by the second. -/
theorem c7_endpoint_adopted_once_witness :
    (runPasses sampleCluster [c7Step, c7Step2]).spec.controlPlaneEndpoint
      = some { host := "10.0.1.100", port := 6443 } :=
  c7_endpoint_adopted_once.2.2.2.2 c7Step [c7Step2] sampleCluster
    "770e8400-e29b-41d4-a716-446655440020" c7Inst
    { addrType := "InternalIP", address := "10.0.1.100" } [] rfl (by decide) rfl rfl
    (by decide) rfl (by decide)

end NvidiaBMM